import Mathlib

/-!
Verification of the XML digital-signature engine of the `bankws` banking
protocol client (`bankws/signature.py`, `bankws/plugin.py`,
`bankws/certificate.py`) against its natural-language specification.

The embedding models lxml element trees shallowly: a tree node is either an
element (tag, attribute list, children), a text node or a comment node.
Namespace-qualified names are represented by fully resolved strings such as
"ds:Signature" (the Python code uses Clark notation
"{http://www.w3.org/2000/09/xmldsig#}Signature"; the mapping is injective, so
tag comparison behaves identically).  Children are encoded in
first-child/next-sibling style (`Xn`), which keeps every traversal
structurally recursive and hence fully computable by the kernel.

External collaborators that the engine only calls through narrow interfaces
(lxml's serializer and C14N writer, hashlib's SHA-1, base64, PyCrypto's RSA
signing, PyOpenSSL's certificate loading and verification) are abstracted as
the fields of a `Prims` record; theorems quantify over them, taking exactly
the algebraic facts the spec assumes (deterministic serialization,
base64 decode inverts encode, a signature made with the matching private key
verifies) as hypotheses.  Filesystem reads are a function
`fs : String -> Option String` (path to content).  Python exceptions are
modelled with `Except`: a function that can raise returns `Except PyErr`.
-/

namespace BankWS

/-- A sibling list of lxml tree nodes, in first-child/next-sibling form.
`nilN` ends a sibling list; an element node carries its tag, its attribute
list (in document order) and its children. -/
inductive Xn where
  | nilN : Xn
  | elemN (tag : String) (attrs : List (String × String)) (kids : Xn) (sib : Xn) : Xn
  | textN (s : String) (sib : Xn) : Xn
  | commentN (s : String) (sib : Xn) : Xn
deriving DecidableEq, Repr

/-- An lxml `_Element`: tag, attributes, children. -/
structure El where
  tag : String
  attrs : List (String × String)
  kids : Xn
deriving DecidableEq, Repr

/-- Rebuild a node from an element and the following siblings. -/
def elToNode (e : El) (sib : Xn) : Xn :=
  Xn.elemN e.tag e.attrs e.kids sib

/-- Append a sibling list at the end of another (lxml `append` of children). -/
def appendN : Xn → Xn → Xn
  | Xn.nilN, y => y
  | Xn.elemN t a k s, y => Xn.elemN t a k (appendN s y)
  | Xn.textN s r, y => Xn.textN s (appendN r y)
  | Xn.commentN s r, y => Xn.commentN s (appendN r y)

/-- lxml `element.append(child)`. -/
def appendChild (e : El) (c : El) : El :=
  { e with kids := appendN e.kids (elToNode c Xn.nilN) }

/-- First attribute value for a key (lxml `element.get(key)`). -/
def lookupA (key : String) : List (String × String) → Option String
  | [] => none
  | (k, v) :: r => if k = key then some v else lookupA key r

/-- lxml `element.set(key, value)`: update in place if present, else append. -/
def setA (key val : String) : List (String × String) → List (String × String)
  | [] => [(key, val)]
  | (k, v) :: r => if k = key then (key, val) :: r else (k, v) :: setA key val r

/-- lxml `element.text`: the text that precedes the first child, `none` when
the element starts with a child element or a comment or is empty. -/
def textOfKids : Xn → Option String
  | Xn.textN s _ => some s
  | _ => none

/-- lxml `element.text = s`: replace the leading text node, or insert one. -/
def setTextK (s : String) : Xn → Xn
  | Xn.textN _ r => Xn.textN s r
  | other => Xn.textN s other

/-- Set the text of an element. -/
def setText (s : String) (e : El) : El :=
  { e with kids := setTextK s e.kids }

/-- First element of a sibling forest satisfying `p`, in document order
(each element before its descendants, descendants before later siblings).
This is the order lxml's `iter()` and XPath `//` produce. -/
def findEl (p : El → Bool) : Xn → Option El
  | Xn.nilN => none
  | Xn.textN _ sib => findEl p sib
  | Xn.commentN _ sib => findEl p sib
  | Xn.elemN t a k sib =>
    if p ⟨t, a, k⟩ then some ⟨t, a, k⟩
    else match findEl p k with
      | some e => some e
      | none => findEl p sib

/-- All elements of a sibling forest satisfying `p`, in document order. -/
def collectEls (p : El → Bool) : Xn → List El
  | Xn.nilN => []
  | Xn.textN _ sib => collectEls p sib
  | Xn.commentN _ sib => collectEls p sib
  | Xn.elemN t a k sib =>
    (if p ⟨t, a, k⟩ then [(⟨t, a, k⟩ : El)] else []) ++ collectEls p k ++ collectEls p sib

/-- XPath `//pred` evaluated from the root element: the root itself may match
(`//x` is `/descendant-or-self::node()/child::x` and the root element is a
child of the document node), then its subtree in document order. -/
def findFromRoot (p : El → Bool) (root : El) : Option El :=
  if p root then some root else findEl p root.kids

/-- All matches of XPath `//pred` from the root element. -/
def collectFromRoot (p : El → Bool) (root : El) : List El :=
  (if p root then [root] else []) ++ collectEls p root.kids

/-- Remove the first direct child equal to `c` (lxml `parent.remove(c)`);
`none` when `c` is not a direct child, in which case lxml raises ValueError. -/
def removeFirstChild (c : El) : Xn → Option Xn
  | Xn.nilN => none
  | Xn.textN s sib => (removeFirstChild c sib).map (Xn.textN s)
  | Xn.commentN s sib => (removeFirstChild c sib).map (Xn.commentN s)
  | Xn.elemN t a k sib =>
    if (⟨t, a, k⟩ : El) = c then some sib
    else (removeFirstChild c sib).map (Xn.elemN t a k)

/-- First direct child element satisfying `p` (lxml `find`, XPath `child::`). -/
def firstChildP (p : El → Bool) : Xn → Option El
  | Xn.nilN => none
  | Xn.textN _ sib => firstChildP p sib
  | Xn.commentN _ sib => firstChildP p sib
  | Xn.elemN t a k sib => if p ⟨t, a, k⟩ then some ⟨t, a, k⟩ else firstChildP p sib

/-- All direct children elements satisfying `p` (lxml `findall`). -/
def childrenP (p : El → Bool) : Xn → List El
  | Xn.nilN => []
  | Xn.textN _ sib => childrenP p sib
  | Xn.commentN _ sib => childrenP p sib
  | Xn.elemN t a k sib =>
    (if p ⟨t, a, k⟩ then [(⟨t, a, k⟩ : El)] else []) ++ childrenP p sib

/-- Replace the first direct child element satisfying `p` by `f` applied to
it; identity when no child matches. -/
def mapFirstChild (p : El → Bool) (f : El → El) : Xn → Xn
  | Xn.nilN => Xn.nilN
  | Xn.textN s sib => Xn.textN s (mapFirstChild p f sib)
  | Xn.commentN s sib => Xn.commentN s (mapFirstChild p f sib)
  | Xn.elemN t a k sib =>
    if p ⟨t, a, k⟩ then elToNode (f ⟨t, a, k⟩) sib
    else Xn.elemN t a k (mapFirstChild p f sib)

/-- List-level substring occurrence test. -/
def listStartsWith : List Char → List Char → Bool
  | [], _ => true
  | _ :: _, [] => false
  | a :: as, b :: bs => a = b && listStartsWith as bs

/-- Occurrence of `needle` inside `hay` at any position. -/
def listSubstr (needle : List Char) : List Char → Bool
  | [] => listStartsWith needle []
  | b :: bs => listStartsWith needle (b :: bs) || listSubstr needle bs

/-- Python `needle in hay` on strings. -/
def substrB (needle hay : String) : Bool :=
  listSubstr needle.data hay.data

/-- Characters strictly before the first `'.'`. -/
def beforeDot : List Char → List Char
  | [] => []
  | c :: r => if c = '.' then [] else c :: beforeDot r

/-- Python `s.split(".")[0] + 'Z'` — the timestamp whole-second truncation of
`plugin.SignerPlugin.get_signature` (also appends `Z` when no dot exists,
exactly as the Python does). -/
def truncSecs (s : String) : String :=
  String.mk (beforeDot s.data) ++ "Z"

/-- Python `s[1:]`: drop the first character (`""` stays `""`). -/
def pyDrop1 (s : String) : String :=
  String.mk s.data.tail

/-- Does the string contain an apostrophe (character 39)?  Splicing such a
string into the single-quoted XPath literal of signature.py line 135 breaks
(or alters) the expression, which lxml rejects with `XPathEvalError`. -/
def containsApos (s : String) : Bool :=
  s.data.contains (Char.ofNat 39)

/-- Insert-or-overwrite on an association list, keeping the position of an
existing key: the semantics of `digestvalues[key] = value` on a Python dict
(iteration order is insertion order; overwriting keeps the original slot). -/
def upsert (key : Option String) (val : Option String) :
    List (Option String × Option String) → List (Option String × Option String)
  | [] => [(key, val)]
  | (k, v) :: r => if k = key then (key, val) :: r else (k, v) :: upsert key val r

/-! ## Resolved qualified names and algorithm identifiers

The Python code writes Clark-notation tags
`{namespace-uri}local`; we use the injective shorthand `prefix:local` with
the fixed prefixes ds (XML-DSIG), wsse (WS-Security secext), wsu (WS-Security
utility), SOAP-ENV (SOAP envelope).  `URI`, `Algorithm`, `ValueType`,
`EncodingType` are unqualified attributes, `wsu:Id` is qualified. -/

abbrev dsSignature : String := "ds:Signature"
abbrev dsSignedInfo : String := "ds:SignedInfo"
abbrev dsCanonicalizationMethod : String := "ds:CanonicalizationMethod"
abbrev dsSignatureMethod : String := "ds:SignatureMethod"
abbrev dsReference : String := "ds:Reference"
abbrev dsTransforms : String := "ds:Transforms"
abbrev dsTransform : String := "ds:Transform"
abbrev dsDigestMethod : String := "ds:DigestMethod"
abbrev dsDigestValue : String := "ds:DigestValue"
abbrev dsSignatureValue : String := "ds:SignatureValue"
abbrev dsKeyInfo : String := "ds:KeyInfo"
abbrev dsX509Data : String := "ds:X509Data"
abbrev dsX509Certificate : String := "ds:X509Certificate"
abbrev wsseSecurity : String := "wsse:Security"
abbrev wsseBinarySecurityToken : String := "wsse:BinarySecurityToken"
abbrev wsseSecurityTokenReference : String := "wsse:SecurityTokenReference"
abbrev wsseReference : String := "wsse:Reference"
abbrev wsuTimestamp : String := "wsu:Timestamp"
abbrev wsuCreated : String := "wsu:Created"
abbrev wsuExpires : String := "wsu:Expires"
abbrev wsuId : String := "wsu:Id"
abbrev soapEnvelope : String := "SOAP-ENV:Envelope"
abbrev soapHeader : String := "SOAP-ENV:Header"
abbrev soapBody : String := "SOAP-ENV:Body"
abbrev soapMustUnderstand : String := "SOAP-ENV:mustUnderstand"

/-- The WS-Security secext namespace URI (suds `wssens`), the value a root
`xmlns:wsse` declaration must carry for the validator's nsmap-based
BinarySecurityToken lookup to find anything. -/
abbrev WSSENS : String :=
  "http://docs.oasis-open.org/wss/2004/01/oasis-200401-wss-wssecurity-secext-1.0.xsd"

/-- The WS-Security utility namespace URI (suds `wsuns`), the value a root
`xmlns:wsu` declaration must carry for the validator's `//*[@wsu:Id=..]`
lookups to find anything. -/
abbrev WSUNS : String :=
  "http://docs.oasis-open.org/wss/2004/01/oasis-200401-wss-wssecurity-utility-1.0.xsd"

/-- Constant of `signature.generate_xml_signature`: with-comments C14N identifier. -/
abbrev C14NWITHCOMMENTS : String :=
  "http://www.w3.org/TR/2001/REC-xml-c14n-20010315#WithComments"

/-- RSA-SHA1 signature method identifier. -/
abbrev RSASHA1 : String := "http://www.w3.org/2000/09/xmldsig#rsa-sha1"

/-- Enveloped-signature transform identifier. -/
abbrev ENVELOPED : String := "http://www.w3.org/2000/09/xmldsig#enveloped-signature"

/-- SHA-1 digest method identifier. -/
abbrev SHA1URI : String := "http://www.w3.org/2000/09/xmldsig#sha1"

/-- Constant `plugin.C14N`: exclusive canonicalization identifier. -/
abbrev EXCC14N : String := "http://www.w3.org/2001/10/xml-exc-c14n#"

/-- Constant `plugin.X509`: the X509v3 token profile value type. -/
abbrev X509TYPE : String :=
  "http://docs.oasis-open.org/wss/2004/01/oasis-200401-wss-x509-token-profile-1.0#X509v3"

/-- Constant `plugin.X509BASE64`: the Base64Binary encoding type. -/
abbrev X509B64 : String :=
  "http://docs.oasis-open.org/wss/2004/01/oasis-200401-wss-soap-message-security-1.0#Base64Binary"

/-! ## Abstracted collaborators -/

/-- A loaded X.509 certificate; the engine only ever reads its serial number
(`certificate.check_revocation_status`) and hands it to the verifier. -/
structure Cert where
  serial : Nat
deriving DecidableEq, Repr

/-- Python exceptions that the modelled code can raise. -/
inductive PyErr where
  /-- Python `RuntimeError` (malformed xml in `sign`, raised explicitly). -/
  | runtimeError
  /-- Python IOError (key or certificate file unreadable). -/
  | ioError
  /-- Python `ValueError` (unsupported key format; lxml `remove` of a non-child). -/
  | valueError
  /-- Python `NameError` (`comments`/`exclusive` used unbound in `validate` when no
  CanonicalizationMethod with an Algorithm attribute exists). -/
  | nameError
  /-- Python `TypeError` (`None[1:]` when a DigestValue's parent has no URI). -/
  | typeError
  /-- Python `IndexError` (`[0]` on an empty XPath result in the plugin). -/
  | indexError
  /-- Python `KeyError` (`element.attrib[...]` on a missing attribute). -/
  | keyError
  /-- Python `AttributeError` (`None.split` / `None.text` in the plugin). -/
  | attributeError
  /-- The `OpenSSL.crypto.Error` escaping `crypto.load_crl` on a malformed CRL. -/
  | cryptoError
  /-- The lxml `XPathEvalError`: an undefined namespace prefix in the nsmap
  handed to `xpath`, or a malformed string-built XPath expression. -/
  | xpathError
  /-- The `binascii.Error` (a `ValueError` subclass) raised by
  `base64.b64decode` on malformed input; not caught anywhere in `validate`. -/
  | binasciiError
deriving DecidableEq, Repr

/-- The external primitives the engine calls, abstracted: lxml serialization
(`etree.tostring` of a subtree), lxml C14N (`write_c14n`, keyed by the
`exclusive` and `with_comments` flags), SHA-1, base64, PyCrypto RSA import
and PKCS#1 v1.5 RSA-SHA1 signing, PyOpenSSL certificate loading and
RSA-SHA1 verification.  Byte strings and text strings are both `String`. -/
structure Prims where
  /-- Model of `etree.tostring element` — deterministic subtree serialization. -/
  ser : El → String
  /-- Model of `signature.canonicalizate_message xml exclusive comments`. -/
  c14n : Bool → Bool → String → String
  /-- Model of `hashlib.sha1(x).digest()`. -/
  sha1 : String → String
  /-- Model of `base64.b64encode`. -/
  b64e : String → String
  /-- Model of `base64.b64decode`; `none` models the `binascii.Error` it
  raises on malformed input (with the default `validate=False`, only a bad
  length/padding raises). -/
  b64d : String → Option String
  /-- Model of `Crypto.PublicKey.RSA.importKey`; `none` models `ValueError`. -/
  importKey : String → Option String
  /-- Model of `PKCS1_v1_5.new(key).sign(SHA.new(msg))` — key and message. -/
  rsaSha1Sign : String → String → String
  /-- Model of `OpenSSL.crypto.load_certificate(FILETYPE_ASN1, der)`; `none` is
  `OpenSSL.crypto.Error`. -/
  osslLoadCert : String → Option Cert
  /-- Model of `OpenSSL.crypto.verify(cert, sig, message, sha1)` succeeding. -/
  osslVerify : Cert → String → String → Bool

/-! ## signature.py — signing -/

/-- Model of `signature.calculate_digest(xml_string, exclusive_, comments_)`:
SHA-1 of the canonicalized string. -/
def calculate_digest (P : Prims) (xmlString : String)
    (exclusive comments : Bool) : String :=
  P.sha1 (P.c14n exclusive comments xmlString)

/-- Model of `signature.calculate_signature_value(xml_string, private_key,
exclusive_, comments_)`: canonicalize, read the key file (IOError when
unreadable), import it (ValueError on unsupported format), RSA-SHA1 sign. -/
def calculate_signature_value (P : Prims) (fs : String → Option String)
    (xmlString privateKey : String) (exclusive comments : Bool) :
    Except PyErr String :=
  let canonInfo := P.c14n exclusive comments xmlString
  match fs privateKey with
  | none => .error .ioError
  | some content =>
    match P.importKey content with
    | none => .error .valueError
    | some pkey => .ok (P.rsaSha1Sign pkey canonInfo)

/-- The SignedInfo element assembled by `signature.generate_xml_signature`:
with-comments C14N, RSA-SHA1, and a single empty-URI enveloped Reference
whose DigestValue is the base64 SHA-1 of the with-comments canonicalization
of `xmlString` (the document before the signature is attached). -/
def appSignedInfo (P : Prims) (xmlString : String) : El :=
  ⟨dsSignedInfo, [],
    Xn.elemN dsCanonicalizationMethod [("Algorithm", C14NWITHCOMMENTS)] Xn.nilN
    (Xn.elemN dsSignatureMethod [("Algorithm", RSASHA1)] Xn.nilN
    (Xn.elemN dsReference [("URI", "")]
      (Xn.elemN dsTransforms []
        (Xn.elemN dsTransform [("Algorithm", ENVELOPED)] Xn.nilN Xn.nilN)
        (Xn.elemN dsDigestMethod [("Algorithm", SHA1URI)] Xn.nilN
          (Xn.elemN dsDigestValue []
            (Xn.textN (P.b64e (P.sha1 (P.c14n false true xmlString))) Xn.nilN)
            Xn.nilN)))
      Xn.nilN))⟩

/-- Model of `signature.generate_xml_signature(xml_string, private_key, certificate)`.
The digest is taken with `comments_=True` before anything is attached; the
SignedInfo is (in the Python) temporarily appended to a reparse of the
document purely so that serialization sees the right namespace declarations —
with resolved names this has no observable effect, and the serialized
SignedInfo is what gets RSA-SHA1 signed with `comments_=True`.  The result is
the Signature element with children SignedInfo, SignatureValue, KeyInfo. -/
def generate_xml_signature (P : Prims) (fs : String → Option String)
    (xmlString privateKey certFile : String) : Except PyErr El :=
  let info := appSignedInfo P xmlString
  let infoMessage := P.ser info
  match calculate_signature_value P fs infoMessage privateKey false true with
  | .error e => .error e
  | .ok signaturevalue =>
    match fs certFile with
    | none => .error .ioError
    | some content =>
      .ok ⟨dsSignature, [],
        elToNode info
        (Xn.elemN dsSignatureValue [] (Xn.textN (P.b64e signaturevalue) Xn.nilN)
        (Xn.elemN dsKeyInfo []
          (Xn.elemN dsX509Data []
            (Xn.elemN dsX509Certificate []
              (Xn.textN (P.b64e content) Xn.nilN) Xn.nilN)
            Xn.nilN)
          Xn.nilN))⟩

/-- Model of `signature.sign(xml_string, private_key, certificate, xml_declaration_)`.
The input byte string is modelled as `Option El`: `none` is a byte string
lxml cannot parse (`etree.fromstring` raises `XMLSyntaxError`, turned into
`RuntimeError`), `some e` parses to the tree `e`.  The signature element is
appended as the last child of the root; the result is the serialized tree
(the `xml_declaration_` flag only toggles the XML declaration in the byte
output and has no tree-level effect). -/
def sign (P : Prims) (fs : String → Option String) (input : Option El)
    (privateKey certFile : String) (_xmlDeclaration : Bool := false) :
    Except PyErr El :=
  match input with
  | none => .error .runtimeError
  | some e =>
    let xmlString := P.ser e
    match generate_xml_signature P fs xmlString privateKey certFile with
    | .error err => .error err
    | .ok sigEl => .ok (appendChild e sigEl)

/-! ## signature.py — validation -/

/-- Model of `signature.get_certificate(xml_string)`.  Finds `//ds:KeyInfo`; if any
`//wsse:Reference` exists anywhere in the document, resolves the certificate
out of the first `//wsse:BinarySecurityToken`, otherwise out of the first
`//ds:X509Certificate`; returns the element text (which may itself be
absent), `.ok none` when no certificate can be extracted.  All searches are
document-wide because the Python XPaths start with `//`.

The KeyInfo, wsse:Reference and X509Certificate lookups pass literal nsmap
dicts and cannot raise, but the BinarySecurityToken lookup (line 227) passes
`namespaces=tree.nsmap` — the namespace declarations of the document ROOT,
modelled as the root attributes with `xmlns:`-prefixed keys under the
resolved-prefix abstraction.  lxml raises `ValueError` when that nsmap
carries a default (`None`-prefix, attribute key `xmlns`) declaration, and
`XPathEvalError` when the `wsse` prefix the expression uses is not declared
at the root at all; a `wsse` declaration bound to a different URI makes the
search look in that other namespace and find nothing. -/
def get_certificate (root : El) : Except PyErr (Option String) :=
  match findFromRoot (fun e => e.tag == dsKeyInfo) root with
  | none => .ok none
  | some _ =>
    if (findFromRoot (fun e => e.tag == wsseReference) root).isSome then
      if (lookupA "xmlns" root.attrs).isSome then .error .valueError
      else
        match lookupA "xmlns:wsse" root.attrs with
        | none => .error .xpathError
        | some uri =>
          if uri = WSSENS then
            match findFromRoot (fun e => e.tag == wsseBinarySecurityToken) root with
            | some bst => .ok (textOfKids bst.kids)
            | none => .ok none
          else .ok none
    else
      match findFromRoot (fun e => e.tag == dsX509Certificate) root with
      | some c => .ok (textOfKids c.kids)
      | none => .ok none

/-- State of `validate`'s `for element in signature.iter()` loop:
the `digestvalues` dict (URI of the DigestValue's parent, DigestValue text),
the last SignedInfo element seen, the last SignatureValue text seen. -/
structure ScanState where
  dvs : List (Option String × Option String)
  si : Option El
  sv : Option (Option String)
deriving Repr

/-- One loop step of the `iter()` scan at an element with tag `t`,
attributes `a`, children `k`, whose parent has attributes `pa`. -/
def scanStep (pa : List (String × String)) (t : String)
    (a : List (String × String)) (k : Xn) (st : ScanState) : ScanState :=
  let st1 := if t = dsDigestValue then
    { st with dvs := upsert (lookupA "URI" pa) (textOfKids k) st.dvs } else st
  let st2 := if t = dsSignedInfo then { st1 with si := some ⟨t, a, k⟩ } else st1
  if t = dsSignatureValue then { st2 with sv := some (textOfKids k) } else st2

/-- The `iter()` scan over a sibling forest whose parent has attributes
`pa`, in document order (element first, then its subtree, then later
siblings) — exactly lxml's preorder iteration. -/
def scanKids (pa : List (String × String)) (st : ScanState) : Xn → ScanState
  | Xn.nilN => st
  | Xn.textN _ sib => scanKids pa st sib
  | Xn.commentN _ sib => scanKids pa st sib
  | Xn.elemN t a k sib =>
    let st1 := scanStep pa t a k st
    let st2 := scanKids a st1 k
    scanKids pa st2 sib

/-- The full scan of the Signature element's subtree.  The element itself is
iterated first by lxml, but its tag is `ds:Signature` (that is how it was
found), so the self step never matches and is omitted. -/
def scanSig (sig : El) : ScanState :=
  scanKids sig.attrs ⟨[], none, none⟩ sig.kids

/-- Does this element carry `wsu:Id` equal to `v`
(XPath `//*[@wsu:Id='v']`)? -/
def hasWsuId (v : String) (e : El) : Bool :=
  lookupA wsuId e.attrs == some v

/-- The digest recomputed for a non-empty reference URI `k` (signature.py
lines 135–140): `tree.xpath("//*[@wsu:Id='" + key[1:] + "']",
namespaces=tree.nsmap)`.  The nsmap is the root nsmap, modelled as the
root attributes with `xmlns:`-prefixed keys: a default (`xmlns`)
declaration makes lxml raise `ValueError`, an apostrophe in `key[1:]`
breaks (or alters) the single-quoted string-built predicate and lxml
rejects the expression with `XPathEvalError`, and an undeclared `wsu`
prefix raises `XPathEvalError` at evaluation; a `wsu` declaration bound to
a different URI matches nothing, so the digest stays `""`.  Otherwise the
element with `wsu:Id` equal to `k` without its leading `#` is digested
only when exactly one such element exists; with zero or several matches
the value stays `""` (and the later comparison fails). -/
def lookupDigest (P : Prims) (exclusive comments : Bool) (root : El)
    (k : String) : Except PyErr String :=
  if (lookupA "xmlns" root.attrs).isSome then .error .valueError
  else if containsApos (pyDrop1 k) then .error .xpathError
  else
    match lookupA "xmlns:wsu" root.attrs with
    | none => .error .xpathError
    | some uri =>
      if uri = WSUNS then
        .ok (match collectFromRoot (hasWsuId (pyDrop1 k)) root with
             | [e] => P.b64e (P.sha1 (P.c14n exclusive comments (P.ser e)))
             | _ => "")
      else .ok ""

/-- The digest-recomputation loop of `validate` (signature.py lines
126–144).  `root` is the live tree: the empty-URI case removes the Signature
from it (lxml raises ValueError when the found Signature is not a direct
child of the root), and later iterations see the mutated tree.  A `None` key
(DigestValue under a parent without URI) raises TypeError at `key[1:]`
(the Python tests `key == \x22\x22` first, but `None` fails that test and then
raises at the slice, so dispatching on `None` first is the same function).
Any mismatch returns `false` immediately. -/
def checkDigests (P : Prims) (sig : El) (exclusive comments : Bool)
    (root : El) :
    List (Option String × Option String) → Except PyErr Bool
  | [] => .ok true
  | (key, value) :: rest =>
    match key with
    | none => .error .typeError
    | some k =>
      if k = "" then
        match removeFirstChild sig root.kids with
        | none => .error .valueError
        | some kids' =>
          if value = some (P.b64e (P.sha1 (P.c14n exclusive comments
              (P.ser ({ root with kids := kids' } : El))))) then
            checkDigests P sig exclusive comments { root with kids := kids' } rest
          else .ok false
      else
        match lookupDigest P exclusive comments root k with
        | .error e => .error e
        | .ok dv =>
          if value = some dv then
            checkDigests P sig exclusive comments root rest
          else .ok false

/-- Model of `signature.validate(xml_string)`.  The byte-string argument is modelled
as `Option El` (`none`: unparseable).  `checkRev` is
`certificate.check_revocation_status`, passed in so that theorems can pin
its behaviour; `validate` catches only `ValueError` from it (treated as
"unsupported certificate format", returning `false`); any other exception
propagates.  The function is pure — the Python mutates the parsed tree (the
Signature removal) but never the input byte string. -/
def validate (P : Prims) (checkRev : String → Except PyErr Bool)
    (input : Option El) : Except PyErr Bool :=
  match input with
  | none => .ok false
  | some root =>
    match findFromRoot (fun e => e.tag == dsSignature) root with
    | none => .ok false
    | some sig =>
      let st := scanSig sig
      match get_certificate root with
      | .error e => .error e
      | .ok none => .ok false
      | .ok (some certText) =>
        match st.sv.join with
        | none => .ok false
        | some svText =>
          match st.si with
          | none => .ok false
          | some signedInfo =>
            match P.b64d certText, P.b64d svText with
            | none, _ => .error .binasciiError
            | some _, none => .error .binasciiError
            | some certificateData, some signaturevalue =>
              match findFromRoot
                  (fun e => e.tag == dsCanonicalizationMethod &&
                    (lookupA "Algorithm" e.attrs).isSome) root with
              | none => .error .nameError
              | some cm =>
                let alg := (lookupA "Algorithm" cm.attrs).getD ""
                let comments := substrB "#WithComments" alg
                let exclusive := substrB "xml-exc-c14n#" alg
                let canonInfo := P.c14n exclusive comments (P.ser signedInfo)
                match checkDigests P sig exclusive comments root st.dvs with
                | .error e => .error e
                | .ok false => .ok false
                | .ok true =>
                  match checkRev certificateData with
                  | .ok true => .ok false
                  | .error .valueError => .ok false
                  | .error e => .error e
                  | .ok false =>
                    match P.osslLoadCert certificateData with
                    | none => .ok false
                    | some cert =>
                      if P.osslVerify cert signaturevalue canonInfo then .ok true
                      else .ok false

/-! ## certificate.py — revocation checking -/

/-- The filesystem and clock state `check_revocation_status` interacts with:
whether the `resources` directory exists (so `open(..., 'wb')` can create
the cache file), whether `os.mkdir("resources")` would succeed, the current
cache file content (`none`: no file), and `(today - mtime).days` for it. -/
structure CrlEnv where
  dirExists : Bool
  mkdirOk : Bool
  crlFile : Option String
  ageDays : Nat
deriving Repr

/-- Python `==` between `Revoked.get_serial()` and
`X509.get_serial_number()` (certificate.py line 93): the former is a
hex-encoded byte string (e.g. `b"05"`), the latter an `int` — values of
unrelated types, which Python `==` compares as unequal without raising.
The comparison is therefore constantly `False`: the loop can never report
a revoked certificate. -/
def pySerialEq (_revokedHexSerial : String) (_sn : Nat) : Bool :=
  false

/-- Model of `certificate.check_revocation_status(certificate)`.

`net` is the outcome of `request.urlopen(url).read()`: `some bytes` on
success, `none` when it raises `urllib.error.URLError`.  `loadCrl` models
`crypto.load_crl(FILETYPE_ASN1, bytes)` as the list of revoked entries of
the CRL, each carried as the hex byte string its `get_serial()` returns,
`none` when the bytes are not a DER CRL.  `CRL.get_revoked()` returns
`None` (not an empty sequence) when the CRL revokes nothing, so on an
empty list the `for cert in revoked` loop of line 92 raises `TypeError`;
on a non-empty list every `cert.get_serial() == sn` comparison is the
bytes-vs-int `pySerialEq`, i.e. `False`.

Faithful detail: the refresh writes through
`with open(cache, 'wb') as f: r = request.urlopen(url).read(); f.write(r)` —
the `open(..., 'wb')` truncates (or creates) the cache file *before* the
network fetch runs, so after a failed fetch the `os.path.exists` test in the
`URLError` handler sees a (now empty) file and the function falls through to
`crypto.load_crl` on empty bytes.  When the `resources` directory is missing
the first `open` raises `FileNotFoundError` instead, which the
`EnvironmentError` branch handles with mkdir and a retried fetch whose
failure (URLError is an `OSError`, hence an `EnvironmentError`) returns
`False`. -/
def check_revocation_status (P : Prims)
    (loadCrl : String → Option (List String))
    (env : CrlEnv) (net : Option String) (certificate : String) :
    Except PyErr Bool :=
  let renew := match env.crlFile with
    | some _ => decide (env.ageDays > 0)
    | none => true
  let afterRenew : Except PyErr (Option String) :=
    if renew then
      if env.dirExists then
        -- open(cache, 'wb') truncates/creates the file, then the fetch runs
        match net with
        | some r => .ok (some r)
        | none => .ok (some "")   -- URLError caught; the file now exists, empty
      else
        -- open raises FileNotFoundError, caught by the EnvironmentError branch
        if env.mkdirOk then
          match net with
          | some r => .ok (some r)
          | none => .error .runtimeError  -- placeholder, replaced below
        else .error .runtimeError
    else .ok env.crlFile
  match afterRenew with
  | .error _ =>
    -- both error placeholders above are the explicit `return False` paths
    .ok false
  | .ok file =>
    match file with
    | none => .error .ioError    -- open(cache, 'rb') with no file
    | some content =>
      match loadCrl content with
      | none => .error .cryptoError
      | some revoked =>
        match P.osslLoadCert certificate with
        | none => .error .valueError
        | some cert =>
          match revoked with
          | [] => .error .typeError
          | _ :: _ => .ok (revoked.any (fun r => pySerialEq r cert.serial))

/-! ## plugin.py — WS-Security signing -/

/-- Model of `plugin.SignerPlugin` state after `__init__`: the two file names. -/
structure SignerPlugin where
  keyfile : String
  certificate : String
deriving Repr

/-- Model of `SignerPlugin.__init__(private_key, certificate)`: the key file must be
readable and importable, the certificate file must exist. -/
def mkSignerPlugin (P : Prims) (fs : String → Option String)
    (privateKey certificate : String) : Except PyErr SignerPlugin :=
  match fs privateKey with
  | none => .error .ioError
  | some content =>
    match P.importKey content with
    | none => .error .valueError
    | some _ =>
      match fs certificate with
      | none => .error .ioError
      | some _ => .ok ⟨privateKey, certificate⟩

/-- The children of one Reference built by `SignQueue.insert_references`:
Transforms (with an exclusive-C14N Transform), DigestMethod SHA-1, and an
empty DigestValue. -/
def refTemplateKids : Xn :=
  Xn.elemN dsTransforms []
    (Xn.elemN dsTransform [("Algorithm", EXCC14N)] Xn.nilN Xn.nilN)
    (Xn.elemN dsDigestMethod [("Algorithm", SHA1URI)] Xn.nilN
      (Xn.elemN dsDigestValue [] Xn.nilN Xn.nilN))

/-- Model of `SignQueue.insert_references`: one Reference per queued id, in order. -/
def referencesK : List String → Xn
  | [] => Xn.nilN
  | i :: r => Xn.elemN dsReference [("URI", "#" ++ i)] refTemplateKids (referencesK r)

/-- Model of `SignerPlugin.append_signed_info`: exclusive CanonicalizationMethod,
RSA-SHA1 SignatureMethod, then the references. -/
def wsSignedInfoTemplate (queue : List String) : El :=
  ⟨dsSignedInfo, [],
    Xn.elemN dsCanonicalizationMethod [("Algorithm", EXCC14N)] Xn.nilN
      (Xn.elemN dsSignatureMethod [("Algorithm", RSASHA1)] Xn.nilN
        (referencesK queue))⟩

/-- Model of `SignerPlugin.insert_signature_template`: Signature with SignedInfo, an
empty SignatureValue, and KeyInfo holding a SecurityTokenReference whose
wsse:Reference points at the BinarySecurityToken id. -/
def signatureTemplate (queue : List String) (securityId : String) : El :=
  ⟨dsSignature, [],
    elToNode (wsSignedInfoTemplate queue)
      (Xn.elemN dsSignatureValue [] Xn.nilN
        (Xn.elemN dsKeyInfo []
          (Xn.elemN wsseSecurityTokenReference []
            (Xn.elemN wsseReference
              [("URI", "#" ++ securityId), ("ValueType", X509TYPE)]
              Xn.nilN Xn.nilN)
            Xn.nilN)
          Xn.nilN))⟩

/-- Model of `SignerPlugin.insert_binary_security_token`, the element: ValueType and
EncodingType attributes, then the `queue.mark` wsu:Id, then the base64
certificate content as text. -/
def bstElement (securityId certContent : String) (P : Prims) : El :=
  ⟨wsseBinarySecurityToken,
    [("ValueType", X509TYPE), ("EncodingType", X509B64), (wsuId, securityId)],
    Xn.textN (P.b64e certContent) Xn.nilN⟩

/-- Model of `ensure_security_header`'s loop body: mark every direct `wsu:Timestamp`
child of the Security header with a fresh id (`queue.push_and_mark`),
consuming ids `uid n, uid (n+1), …` in document order.  Returns the marked
children, the next counter and the pushed ids. -/
def markTimestampsK (uid : Nat → String) (n : Nat) :
    Xn → Xn × Nat × List String
  | Xn.nilN => (Xn.nilN, n, [])
  | Xn.textN s sib =>
    let (x, m, ids) := markTimestampsK uid n sib
    (Xn.textN s x, m, ids)
  | Xn.commentN s sib =>
    let (x, m, ids) := markTimestampsK uid n sib
    (Xn.commentN s x, m, ids)
  | Xn.elemN t a k sib =>
    if t = wsuTimestamp then
      let (x, m, ids) := markTimestampsK uid (n + 1) sib
      (Xn.elemN t (setA wsuId (uid n) a) k x, m, uid n :: ids)
    else
      let (x, m, ids) := markTimestampsK uid n sib
      (Xn.elemN t a k x, m, ids)

/-- Fill the DigestValue of each direct Reference child whose URI (with the
leading `#` stripped) equals the Body or Timestamp id — the reference loop
of `SignerPlugin.get_signature` (plugin.py lines 245–255).  A Reference
without URI raises KeyError; a matching Reference without a DigestValue
child makes `find` return `None` and `dv.text = …` raise AttributeError. -/
def fillRefs (bodyId tsId bodyDigest tsDigest : String) :
    Xn → Except PyErr Xn
  | Xn.nilN => .ok Xn.nilN
  | Xn.textN s sib => (fillRefs bodyId tsId bodyDigest tsDigest sib).map (Xn.textN s)
  | Xn.commentN s sib =>
    (fillRefs bodyId tsId bodyDigest tsDigest sib).map (Xn.commentN s)
  | Xn.elemN t a k sib =>
    if t = dsReference then
      match lookupA "URI" a with
      | none => .error .keyError
      | some uri =>
        let fill : String → Except PyErr Xn := fun digest =>
          if (firstChildP (fun e => e.tag == dsDigestValue) k).isSome then
            .ok (mapFirstChild (fun e => e.tag == dsDigestValue)
              (setText digest) k)
          else .error .attributeError
        if pyDrop1 uri = bodyId then
          match fill bodyDigest with
          | .error e => .error e
          | .ok k' =>
            (fillRefs bodyId tsId bodyDigest tsDigest sib).map (Xn.elemN t a k')
        else if pyDrop1 uri = tsId then
          match fill tsDigest with
          | .error e => .error e
          | .ok k' =>
            (fillRefs bodyId tsId bodyDigest tsDigest sib).map (Xn.elemN t a k')
        else
          (fillRefs bodyId tsId bodyDigest tsDigest sib).map (Xn.elemN t a k)
    else (fillRefs bodyId tsId bodyDigest tsDigest sib).map (Xn.elemN t a k)

/-- Model of `SignerPlugin.get_signature(envelope)` (plugin.py lines 193–269).
Recomputes nothing about namespaces (resolved names); follows the Python
step for step: find the Body and digest it (exclusive, no comments); find
the Timestamp, truncate its Created/Expires text to whole seconds, digest
the *truncated* element; fill both DigestValues; serialize the SignedInfo
and RSA-SHA1 sign its exclusive canonicalization; store the base64
SignatureValue; return the updated document. -/
def get_signature (P : Prims) (fs : String → Option String)
    (plugin : SignerPlugin) (doc : El) : Except PyErr El :=
  let bodies := if doc.tag = soapEnvelope then
    childrenP (fun e => e.tag == soapBody) doc.kids else []
  match bodies.head? with
  | none => .error .indexError
  | some body =>
    match lookupA wsuId body.attrs with
    | none => .error .keyError
    | some bodyId =>
      let bodyDigest := P.b64e (P.sha1 (P.c14n true false (P.ser body)))
      let headers := if doc.tag = soapEnvelope then
        childrenP (fun e => e.tag == soapHeader) doc.kids else []
      match headers.head? with
      | none => .error .indexError
      | some header =>
        match firstChildP (fun e => e.tag == wsseSecurity) header.kids with
        | none => .error .indexError
        | some security =>
          match firstChildP (fun e => e.tag == wsuTimestamp) security.kids with
          | none => .error .indexError
          | some ts =>
            match lookupA wsuId ts.attrs with
            | none => .error .keyError
            | some tsId =>
              match firstChildP (fun e => e.tag == wsuCreated) ts.kids,
                  firstChildP (fun e => e.tag == wsuExpires) ts.kids with
              | none, _ => .error .indexError
              | _, none => .error .indexError
              | some created, some expires =>
                match textOfKids created.kids, textOfKids expires.kids with
                | none, _ => .error .attributeError
                | _, none => .error .attributeError
                | some tc, some te =>
                  let tsKids2 :=
                    mapFirstChild (fun e => e.tag == wsuCreated)
                      (fun _ => setText (truncSecs tc) created)
                      (mapFirstChild (fun e => e.tag == wsuExpires)
                        (fun _ => setText (truncSecs te) expires) ts.kids)
                  let ts2 : El := { ts with kids := tsKids2 }
                  let tsDigest := P.b64e (P.sha1 (P.c14n true false (P.ser ts2)))
                  match firstChildP (fun e => e.tag == dsSignature) security.kids with
                  | none => .error .indexError
                  | some signatureEl =>
                    match firstChildP (fun e => e.tag == dsSignedInfo)
                        signatureEl.kids with
                    | none => .error .indexError
                    | some signedInfo =>
                      match fillRefs bodyId tsId bodyDigest tsDigest
                          signedInfo.kids with
                      | .error e => .error e
                      | .ok siKids =>
                        let signedInfo2 : El := { signedInfo with kids := siKids }
                        let infomessage := P.ser signedInfo2
                        match calculate_signature_value P fs infomessage
                            plugin.keyfile true false with
                        | .error e => .error e
                        | .ok sv =>
                          if (firstChildP (fun e => e.tag == dsSignatureValue)
                              signatureEl.kids).isSome then
                            let sigKids2 :=
                              mapFirstChild (fun e => e.tag == dsSignatureValue)
                                (setText (P.b64e sv))
                                (mapFirstChild (fun e => e.tag == dsSignedInfo)
                                  (fun _ => signedInfo2) signatureEl.kids)
                            let signatureEl2 : El :=
                              { signatureEl with kids := sigKids2 }
                            let secKids2 :=
                              mapFirstChild (fun e => e.tag == dsSignature)
                                (fun _ => signatureEl2)
                                (mapFirstChild (fun e => e.tag == wsuTimestamp)
                                  (fun _ => ts2) security.kids)
                            let security2 : El := { security with kids := secKids2 }
                            let hdrKids2 :=
                              mapFirstChild (fun e => e.tag == wsseSecurity)
                                (fun _ => security2) header.kids
                            let header2 : El := { header with kids := hdrKids2 }
                            let docKids2 :=
                              mapFirstChild (fun e => e.tag == soapHeader)
                                (fun _ => header2) doc.kids
                            .ok { doc with kids := docKids2 }
                          else .error .attributeError

/-- Model of `SignerPlugin.sending(context)` (plugin.py lines 108–122) together with
`ensure_security_header`, `insert_binary_security_token` and
`insert_signature_template`.  `uid` supplies the `get_unique_id` results in
call order: `uid 0` for the Body, `uid 1, …` for each pre-existing Timestamp
of the Security header (in document order), then the next value for the
BinarySecurityToken.  Returns the fully signed envelope. -/
def sending (P : Prims) (fs : String → Option String) (uid : Nat → String)
    (plugin : SignerPlugin) (env : El) : Except PyErr El :=
  let bodies := if env.tag = soapEnvelope then
    childrenP (fun e => e.tag == soapBody) env.kids else []
  match bodies with
  | [_] =>
    let idB := uid 0
    let envKids1 :=
      mapFirstChild (fun e => e.tag == soapBody)
        (fun b => { b with attrs := setA wsuId idB b.attrs }) env.kids
    let env1 : El := { env with kids := envKids1 }
    let headers := if env1.tag = soapEnvelope then
      childrenP (fun e => e.tag == soapHeader) env1.kids else []
    match headers with
    | [header] =>
      let secs := childrenP (fun e => e.tag == wsseSecurity) header.kids
      -- ensure_security_header: take the existing Security (marking every
      -- direct Timestamp child) or create a fresh one
      let (security1, queue, next, existed) :=
        match secs.head? with
        | some sec =>
          let (kids', n', tsIds) := markTimestampsK uid 1 sec.kids
          (({ sec with kids := kids' } : El), idB :: tsIds, n', true)
        | none =>
          ((⟨wsseSecurity, [(soapMustUnderstand, "1")], Xn.nilN⟩ : El),
            [idB], 1, false)
      match fs plugin.certificate with
      | none => .error .ioError
      | some certContent =>
        let idS := uid next
        let security2 := appendChild security1 (bstElement idS certContent P)
        let security3 := appendChild security2 (signatureTemplate queue idS)
        let header2 : El :=
          if existed then
            let hKids :=
              mapFirstChild (fun e => e.tag == wsseSecurity)
                (fun _ => security3) header.kids
            { header with kids := hKids }
          else appendChild header security3
        let envKids2 :=
          mapFirstChild (fun e => e.tag == soapHeader)
            (fun _ => header2) env1.kids
        let env2 : El := { env1 with kids := envKids2 }
        get_signature P fs plugin env2
    | _ => .error .valueError
  | _ => .error .valueError

/-! ## A concrete instantiation of the abstracted collaborators

Used by the witnesses: a simple executable serializer and trivially
computable stand-ins for the cryptographic primitives, chosen so that every
hypothesis of the theorems (determinism, base64 round trip, matching
key/certificate) holds and can be checked by `decide`. -/

/-- Serialize an attribute list. -/
def serAttrs : List (String × String) → String
  | [] => ""
  | (k, v) :: r => " " ++ k ++ "=\x22" ++ v ++ "\x22" ++ serAttrs r

/-- Serialize a sibling forest. -/
def serKids : Xn → String
  | Xn.nilN => ""
  | Xn.textN s sib => s ++ serKids sib
  | Xn.commentN s sib => "<!--" ++ s ++ "-->" ++ serKids sib
  | Xn.elemN t a k sib =>
    "<" ++ t ++ serAttrs a ++ ">" ++ serKids k ++ "</" ++ t ++ ">" ++ serKids sib

/-- Serialize one element. -/
def serEl (e : El) : String :=
  "<" ++ e.tag ++ serAttrs e.attrs ++ ">" ++ serKids e.kids ++ "</" ++ e.tag ++ ">"

/-- Concrete collaborators for witnesses. -/
def demoPrims : Prims where
  ser := serEl
  c14n := fun _ _ s => s
  sha1 := fun s => s
  b64e := fun s => s
  b64d := fun s => some s
  importKey := fun s => if s = "PEMKEY" then some "KEY" else none
  rsaSha1Sign := fun pk m => pk ++ "|" ++ m
  osslLoadCert := fun s =>
    if s = "CERTDER" then some ⟨7⟩
    else if s = "REVCERT" then some ⟨5⟩
    else none
  osslVerify := fun _ sig m => sig == "KEY" ++ "|" ++ m

/-- Concrete filesystem for witnesses: one key file, one certificate file. -/
def demoFs : String → Option String := fun p =>
  if p = "key.pem" then some "PEMKEY"
  else if p = "cert.der" then some "CERTDER"
  else if p = "revcert.der" then some "REVCERT"
  else none

/-- Concrete revocation checker for witnesses: nothing is revoked. -/
def demoCheckRev : String → Except PyErr Bool := fun _ => .ok false

/-- Concrete id supply for witnesses. -/
def demoUid : Nat → String := fun n => "id-" ++ toString n

/-- Concrete CRL loader for witnesses: only "GOODCRL" is a valid DER CRL,
with one revoked entry whose `get_serial()` is the hex byte string "05" —
the hex encoding of serial number 5. -/
def demoLoadCrl : String → Option (List String) := fun s =>
  if s = "GOODCRL" then some ["05"] else none

/-- Concrete `SignerPlugin` for witnesses. -/
def demoPlugin : SignerPlugin := ⟨"key.pem", "cert.der"⟩

/-- A concrete application document for witnesses. -/
def demoDoc : El := ⟨"ApplicationRequest", [], Xn.textN "hello" Xn.nilN⟩

/-- The demo document with one byte of its text content changed. -/
def demoDocTampered : El := ⟨"ApplicationRequest", [], Xn.textN "hellp" Xn.nilN⟩

/-- A well-formed document that already contains a `ds:Signature` element
(for example an application message with an embedded signed payload). -/
def preSignedDoc : El :=
  ⟨"ApplicationRequest", [],
    Xn.elemN dsSignature [] Xn.nilN (Xn.textN "hello" Xn.nilN)⟩

/-- A parseable document whose Signature carries SignedInfo, SignatureValue
and an X509Certificate but no CanonicalizationMethod anywhere. -/
def noCanonDoc : El :=
  ⟨"doc", [],
    Xn.elemN dsSignature []
      (Xn.elemN dsSignedInfo [] Xn.nilN
        (Xn.elemN dsSignatureValue [] (Xn.textN "sv" Xn.nilN)
          (Xn.elemN dsKeyInfo []
            (Xn.elemN dsX509Data []
              (Xn.elemN dsX509Certificate [] (Xn.textN "CERTDER" Xn.nilN)
                Xn.nilN)
              Xn.nilN)
            Xn.nilN)))
      Xn.nilN⟩

/-- A parseable document with a Signature and a SignedInfo but no KeyInfo:
no certificate can be extracted. -/
def noCertDoc : El :=
  ⟨"doc", [],
    Xn.elemN dsSignature []
      (Xn.elemN dsSignedInfo [] Xn.nilN
        (Xn.elemN dsSignatureValue [] (Xn.textN "sv" Xn.nilN) Xn.nilN))
      Xn.nilN⟩

/-- A parseable document whose Signature carries SignedInfo, SignatureValue
and a KeyInfo holding a wsse:Reference, but no BinarySecurityToken — and
whose root declares no namespaces, so the BinarySecurityToken lookup runs
with the `wsse` prefix undefined in the root nsmap. -/
def noBstDoc : El :=
  ⟨"doc", [],
    Xn.elemN dsSignature []
      (Xn.elemN dsSignedInfo [] Xn.nilN
        (Xn.elemN dsSignatureValue [] (Xn.textN "sv" Xn.nilN)
          (Xn.elemN dsKeyInfo []
            (Xn.elemN wsseSecurityTokenReference []
              (Xn.elemN wsseReference [("URI", "#x")] Xn.nilN Xn.nilN)
              Xn.nilN)
            Xn.nilN)))
      Xn.nilN⟩

/-- The Signature element `generate_xml_signature` produces on success, with
private key handle `pkey` and certificate file content `certContent`. -/
def appSigEl (P : Prims) (xmlString pkey certContent : String) : El :=
  ⟨dsSignature, [],
    elToNode (appSignedInfo P xmlString)
      (Xn.elemN dsSignatureValue []
        (Xn.textN (P.b64e (P.rsaSha1Sign pkey
          (P.c14n false true (P.ser (appSignedInfo P xmlString))))) Xn.nilN)
        (Xn.elemN dsKeyInfo []
          (Xn.elemN dsX509Data []
            (Xn.elemN dsX509Certificate []
              (Xn.textN (P.b64e certContent) Xn.nilN) Xn.nilN)
            Xn.nilN)
          Xn.nilN))⟩

/-- The tail of `validate` after all digests matched: revocation check, then
certificate loading, then RSA-SHA1 verification. -/
def revTail (P : Prims) (checkRev : String → Except PyErr Bool)
    (certData svRaw canonInfo : String) : Except PyErr Bool :=
  match checkRev certData with
  | .ok true => .ok false
  | .error .valueError => .ok false
  | .error e => .error e
  | .ok false =>
    match P.osslLoadCert certData with
    | none => .ok false
    | some cert => if P.osslVerify cert svRaw canonInfo then .ok true else .ok false

/-- The application document is free of the XML-DSIG and WS-Security
elements whose document-wide (`//`) searches in `validate` and
`get_certificate` would otherwise hit the document instead of the appended
Signature: no `ds:Signature`, no `ds:CanonicalizationMethod`, no
`ds:X509Certificate`, no `wsse:Reference`. -/
def appClean (d : El) : Prop :=
  d.tag ≠ dsSignature ∧ d.tag ≠ dsCanonicalizationMethod ∧
  d.tag ≠ dsX509Certificate ∧ d.tag ≠ wsseReference ∧
  findEl (fun e => e.tag == dsSignature) d.kids = none ∧
  findEl (fun e => e.tag == dsCanonicalizationMethod) d.kids = none ∧
  findEl (fun e => e.tag == dsX509Certificate) d.kids = none ∧
  findEl (fun e => e.tag == wsseReference) d.kids = none

instance (d : El) : Decidable (appClean d) := by
  unfold appClean
  infer_instance

/-! ## The WS-Security envelope family and the shape of `sending`'s output -/

/-- A `wsu:Timestamp` element with Created and Expires texts. -/
def tsFam (aT : List (String × String)) (tc te : String) : El :=
  ⟨wsuTimestamp, aT,
    Xn.elemN wsuCreated [] (Xn.textN tc Xn.nilN)
      (Xn.elemN wsuExpires [] (Xn.textN te Xn.nilN) Xn.nilN)⟩

/-- Root namespace declarations of the WS envelope family: the `wsse` and
`wsu` prefixes declared on the Envelope element with their standard URIs.
The nsmap-based lookups of `validate` (the BinarySecurityToken XPath and
the `//*[@wsu:Id=..]` digest XPaths, both evaluated with
`namespaces=tree.nsmap`) raise `XPathEvalError` on an envelope whose root
does not declare these prefixes, so only envelopes declaring them can
round-trip. -/
def wsNsDecls : List (String × String) :=
  [("xmlns:wsse", WSSENS), ("xmlns:wsu", WSUNS)]

/-- A SOAP envelope whose Header holds a Security header with exactly one
Timestamp, and whose Body has attributes `aB` and arbitrary content
`bodyKids` — the shape suds hands to `SignerPlugin.sending`, with the
WS-Security prefixes declared on the root. -/
def envFam (aT aB : List (String × String)) (tc te : String)
    (bodyKids : Xn) : El :=
  ⟨soapEnvelope, wsNsDecls,
    Xn.elemN soapHeader []
      (Xn.elemN wsseSecurity [] (elToNode (tsFam aT tc te) Xn.nilN) Xn.nilN)
      (Xn.elemN soapBody aB bodyKids Xn.nilN)⟩

/-- The Body after `queue.push_and_mark`. -/
def bodyMarked (idB : String) (aB : List (String × String)) (bodyKids : Xn) : El :=
  ⟨soapBody, setA wsuId idB aB, bodyKids⟩

/-- The marked Timestamp with (shown) Created/Expires texts `c`/`e`. -/
def tsMarked (idT : String) (aT : List (String × String)) (c e : String) : El :=
  ⟨wsuTimestamp, setA wsuId idT aT,
    Xn.elemN wsuCreated [] (Xn.textN c Xn.nilN)
      (Xn.elemN wsuExpires [] (Xn.textN e Xn.nilN) Xn.nilN)⟩

/-- Reference children with the DigestValue filled in. -/
def filledRefKids (digest : String) : Xn :=
  Xn.elemN dsTransforms []
    (Xn.elemN dsTransform [("Algorithm", EXCC14N)] Xn.nilN Xn.nilN)
    (Xn.elemN dsDigestMethod [("Algorithm", SHA1URI)] Xn.nilN
      (Xn.elemN dsDigestValue [] (Xn.textN digest Xn.nilN) Xn.nilN))

/-- The WS SignedInfo with both DigestValues filled in. -/
def wsSignedInfoFilled (idB idT dvB dvT : String) : El :=
  ⟨dsSignedInfo, [],
    Xn.elemN dsCanonicalizationMethod [("Algorithm", EXCC14N)] Xn.nilN
      (Xn.elemN dsSignatureMethod [("Algorithm", RSASHA1)] Xn.nilN
        (Xn.elemN dsReference [("URI", "#" ++ idB)] (filledRefKids dvB)
          (Xn.elemN dsReference [("URI", "#" ++ idT)] (filledRefKids dvT)
            Xn.nilN)))⟩

/-- The completed WS Signature element: filled SignedInfo, base64 RSA-SHA1
SignatureValue over the exclusive canonicalization of the serialized
SignedInfo, and the KeyInfo SecurityTokenReference. -/
def wsSigEl (P : Prims) (pk idB idT idS dvB dvT : String) : El :=
  ⟨dsSignature, [],
    elToNode (wsSignedInfoFilled idB idT dvB dvT)
      (Xn.elemN dsSignatureValue []
        (Xn.textN (P.b64e (P.rsaSha1Sign pk
          (P.c14n true false (P.ser (wsSignedInfoFilled idB idT dvB dvT)))))
          Xn.nilN)
        (Xn.elemN dsKeyInfo []
          (Xn.elemN wsseSecurityTokenReference []
            (Xn.elemN wsseReference
              [("URI", "#" ++ idS), ("ValueType", X509TYPE)]
              Xn.nilN Xn.nilN)
            Xn.nilN)
          Xn.nilN))⟩

/-- Assemble a signed WS envelope from its four variable parts; the root
carries the family's namespace declarations, which `sending` preserves. -/
def wsDocOf (t bst sig body : El) : El :=
  ⟨soapEnvelope, wsNsDecls,
    Xn.elemN soapHeader []
      (Xn.elemN wsseSecurity []
        (elToNode t (elToNode bst (elToNode sig Xn.nilN)))
        Xn.nilN)
      (elToNode body Xn.nilN)⟩

/-- The Body digest `get_signature` computes. -/
def wsBodyDigest (P : Prims) (idB : String) (aB : List (String × String))
    (bodyKids : Xn) : String :=
  P.b64e (P.sha1 (P.c14n true false (P.ser (bodyMarked idB aB bodyKids))))

/-- The Timestamp digest `get_signature` computes — over the element whose
Created/Expires texts have been truncated to whole seconds. -/
def wsTsDigest (P : Prims) (idT : String) (aT : List (String × String))
    (tc te : String) : String :=
  P.b64e (P.sha1 (P.c14n true false
    (P.ser (tsMarked idT aT (truncSecs tc) (truncSecs te)))))

/-- The full output of `sending` on the envelope family. -/
def wsOut (P : Prims) (pk cc idB idT idS : String)
    (aT aB : List (String × String)) (tc te : String) (bodyKids : Xn) : El :=
  wsDocOf (tsMarked idT aT (truncSecs tc) (truncSecs te))
    (bstElement idS cc P)
    (wsSigEl P pk idB idT idS (wsBodyDigest P idB aB bodyKids)
      (wsTsDigest P idT aT tc te))
    (bodyMarked idB aB bodyKids)

/-- A SOAP envelope whose Security header carries two `wsu:Timestamp`
elements (each with Created and Expires). -/
def envTwoTs : El :=
  ⟨soapEnvelope, [],
    Xn.elemN soapHeader []
      (Xn.elemN wsseSecurity []
        (elToNode (tsFam [] "1.5Z" "2.5Z")
          (elToNode (tsFam [] "3.5Z" "4.5Z") Xn.nilN))
        Xn.nilN)
      (Xn.elemN soapBody [] (Xn.textN "payload" Xn.nilN) Xn.nilN)⟩

/-- The URIs of the Reference children of a SignedInfo element. -/
def refURIs (si : El) : List (Option String) :=
  (childrenP (fun e => e.tag == dsReference) si.kids).map
    (fun r => lookupA "URI" r.attrs)

/-- The Reference count of the SignedInfo inside the first Signature of a
document, `none` when the document has no Signature or no SignedInfo. -/
def wsRefCount (doc : El) : Option Nat :=
  match findFromRoot (fun e => e.tag == dsSignature) doc with
  | none => none
  | some sig =>
    match firstChildP (fun e => e.tag == dsSignedInfo) sig.kids with
    | none => none
    | some si =>
      some (childrenP (fun e => e.tag == dsReference) si.kids).length

/-! ## Helper lemmas about the tree operations -/

lemma string_mk_data (s : String) : String.mk s.data = s := by cases s; rfl

lemma hash_data (s : String) : (("#" ++ s : String)).data = '#' :: s.data := rfl

lemma pyDrop1_hash (s : String) : pyDrop1 ("#" ++ s) = s := by
  simp [pyDrop1, hash_data, string_mk_data]

lemma hash_ne_empty (s : String) : ("#" ++ s : String) ≠ "" := by
  intro h
  have hd : (("#" ++ s : String)).data = ("" : String).data := by rw [h]
  simp [hash_data] at hd

lemma hash_inj {a b : String} : ("#" ++ a : String) = "#" ++ b ↔ a = b := by
  constructor
  · intro h
    have hd : (("#" ++ a : String)).data = (("#" ++ b : String)).data := by rw [h]
    simp [hash_data] at hd
    cases a; cases b; simp_all
  · intro h; rw [h]

lemma lookupA_setA_self (k v : String) (a : List (String × String)) :
    lookupA k (setA k v a) = some v := by
  induction a with
  | nil => simp [setA, lookupA]
  | cons h t ih =>
    obtain ⟨k', v'⟩ := h
    by_cases hk : k' = k
    · subst hk; simp [setA, lookupA]
    · simp [setA, lookupA, hk, ih]

lemma findEl_append (p : El → Bool) (x y : Xn) :
    findEl p (appendN x y) =
      match findEl p x with
      | some e => some e
      | none => findEl p y := by
  induction x with
  | nilN => simp [appendN, findEl]
  | elemN t a k sib ihk ihs =>
    by_cases hp : p ⟨t, a, k⟩
    · simp [appendN, findEl, hp]
    · simp only [appendN, findEl, hp, if_false, Bool.false_eq_true, ite_false]
      cases hk : findEl p k <;> simp [hk, ihs]
  | textN s sib ih => simp [appendN, findEl, ih]
  | commentN s sib ih => simp [appendN, findEl, ih]

lemma collectEls_append (p : El → Bool) (x y : Xn) :
    collectEls p (appendN x y) = collectEls p x ++ collectEls p y := by
  induction x with
  | nilN => simp [appendN, collectEls]
  | elemN t a k sib ihk ihs => simp [appendN, collectEls, ihs]
  | textN s sib ih => simp [appendN, collectEls, ih]
  | commentN s sib ih => simp [appendN, collectEls, ih]

lemma findEl_none_mono {p q : El → Bool} (hpq : ∀ e, p e = true → q e = true)
    {x : Xn} (h : findEl q x = none) : findEl p x = none := by
  induction x with
  | nilN => simp [findEl]
  | elemN t a k sib ihk ihs =>
    simp only [findEl] at h ⊢
    by_cases hq : q ⟨t, a, k⟩
    · simp [hq] at h
    · have hp : ¬ p ⟨t, a, k⟩ = true := fun hc => hq (hpq _ hc)
      simp only [hq, if_false, Bool.false_eq_true, ite_false] at h
      simp only [hp, if_false, Bool.false_eq_true, ite_false]
      cases hk : findEl q k with
      | some e => simp [hk] at h
      | none =>
        simp only [hk] at h
        rw [ihk hk]
        exact ihs h
  | textN s sib ih => simp only [findEl] at h ⊢; exact ih h
  | commentN s sib ih => simp only [findEl] at h ⊢; exact ih h

lemma removeFirstChild_append (c : El) (x : Xn)
    (h : findEl (fun e => e.tag == c.tag) x = none) :
    removeFirstChild c (appendN x (elToNode c Xn.nilN)) = some x := by
  induction x with
  | nilN =>
    simp [appendN, elToNode, removeFirstChild]
  | elemN t a k sib ihk ihs =>
    simp only [findEl] at h
    by_cases hq : (fun e => e.tag == c.tag) (⟨t, a, k⟩ : El)
    · simp [hq] at h
    · simp only [hq, if_false, Bool.false_eq_true, ite_false] at h
      cases hk : findEl (fun e => e.tag == c.tag) k with
      | some e => simp [hk] at h
      | none =>
        simp only [hk] at h
        have hne : (⟨t, a, k⟩ : El) ≠ c := by
          intro hc
          subst hc
          simp at hq
        simp [appendN, removeFirstChild, hne, ihs h]
  | textN s sib ih =>
    simp only [findEl] at h
    simp [appendN, removeFirstChild, ih h]
  | commentN s sib ih =>
    simp only [findEl] at h
    simp [appendN, removeFirstChild, ih h]

end BankWS

namespace BankWS
lemma sending_eq (P : Prims) (fs : String → Option String) (uid : Nat → String)
    (plugin : SignerPlugin) (aT aB : List (String × String)) (tc te : String)
    (bodyKids : Xn) (kc pk cc : String)
    (hkey : fs plugin.keyfile = some kc) (hik : P.importKey kc = some pk)
    (hcert : fs plugin.certificate = some cc)
    (h10 : uid 1 ≠ uid 0) :
    sending P fs uid plugin (envFam aT aB tc te bodyKids) =
      .ok (wsOut P pk cc (uid 0) (uid 1) (uid 2) aT aB tc te bodyKids) := by
  simp +decide [sending, get_signature, envFam, tsFam, childrenP, mapFirstChild,
    firstChildP, markTimestampsK, appendChild, appendN, elToNode, bstElement,
    signatureTemplate, wsSignedInfoTemplate, referencesK, refTemplateKids,
    fillRefs, lookupA, lookupA_setA_self, setText, setTextK, textOfKids,
    pyDrop1_hash, calculate_signature_value, hcert, hkey, hik, h10,
    wsOut, wsDocOf, tsMarked, bodyMarked, wsSigEl, wsSignedInfoFilled,
    filledRefKids, wsBodyDigest, wsTsDigest, Except.map]
end BankWS

namespace BankWS
lemma validate_wsDoc (P : Prims) (checkRev : String → Except PyErr Bool)
    (pk cc idB idT idS : String) (aT aB : List (String × String))
    (c e : String) (bodyKids : Xn) (dvB dvT : String)
    (hb64 : ∀ s, P.b64d (P.b64e s) = some s)
    (hBT : idB ≠ idT) (hTB : idT ≠ idB) (hSB : idS ≠ idB) (hST : idS ≠ idT)
    (haB : containsApos idB = false) (haT : containsApos idT = false)
    (hyB : collectEls (hasWsuId idB) bodyKids = [])
    (hyT : collectEls (hasWsuId idT) bodyKids = []) :
    validate P checkRev (some (wsDocOf (tsMarked idT aT c e) (bstElement idS cc P)
        (wsSigEl P pk idB idT idS dvB dvT) (bodyMarked idB aB bodyKids))) =
      if dvB = P.b64e (P.sha1 (P.c14n true false (P.ser (bodyMarked idB aB bodyKids)))) then
        if dvT = P.b64e (P.sha1 (P.c14n true false (P.ser (tsMarked idT aT c e)))) then
          revTail P checkRev cc
            (P.rsaSha1Sign pk
              (P.c14n true false (P.ser (wsSignedInfoFilled idB idT dvB dvT))))
            (P.c14n true false (P.ser (wsSignedInfoFilled idB idT dvB dvT)))
        else .ok false
      else .ok false := by
  have hfind : findFromRoot (fun e' => e'.tag == dsSignature)
      (wsDocOf (tsMarked idT aT c e) (bstElement idS cc P)
        (wsSigEl P pk idB idT idS dvB dvT) (bodyMarked idB aB bodyKids)) =
      some (wsSigEl P pk idB idT idS dvB dvT) := by
    rfl
  have hscan : scanSig (wsSigEl P pk idB idT idS dvB dvT) =
      ⟨[(some ("#" ++ idB), some dvB), (some ("#" ++ idT), some dvT)],
        some (wsSignedInfoFilled idB idT dvB dvT),
        some (some (P.b64e (P.rsaSha1Sign pk
          (P.c14n true false (P.ser (wsSignedInfoFilled idB idT dvB dvT))))))⟩ := by
    simp +decide [scanSig, scanKids, scanStep, upsert, textOfKids, lookupA,
      wsSigEl, wsSignedInfoFilled, filledRefKids, elToNode, hash_inj, hBT]
  have hcert : get_certificate
      (wsDocOf (tsMarked idT aT c e) (bstElement idS cc P)
        (wsSigEl P pk idB idT idS dvB dvT) (bodyMarked idB aB bodyKids)) =
      .ok (some (P.b64e cc)) := by
    rfl
  have hcanon : findFromRoot (fun e' => e'.tag == dsCanonicalizationMethod &&
      (lookupA "Algorithm" e'.attrs).isSome)
      (wsDocOf (tsMarked idT aT c e) (bstElement idS cc P)
        (wsSigEl P pk idB idT idS dvB dvT) (bodyMarked idB aB bodyKids)) =
      some ⟨dsCanonicalizationMethod, [("Algorithm", EXCC14N)], Xn.nilN⟩ := by
    rfl
  have hsub1 : substrB "#WithComments" EXCC14N = false := by decide
  have hsub2 : substrB "xml-exc-c14n#" EXCC14N = true := by decide
  have hcoll1 : collectFromRoot (hasWsuId idB)
      (wsDocOf (tsMarked idT aT c e) (bstElement idS cc P)
        (wsSigEl P pk idB idT idS dvB dvT) (bodyMarked idB aB bodyKids)) =
      [bodyMarked idB aB bodyKids] := by
    simp +decide [collectFromRoot, collectEls, hasWsuId, lookupA,
      lookupA_setA_self, wsDocOf, tsMarked, bodyMarked, bstElement, wsSigEl,
      wsSignedInfoFilled, filledRefKids, elToNode, hyB, hTB, hSB]
  have hcoll2 : collectFromRoot (hasWsuId idT)
      (wsDocOf (tsMarked idT aT c e) (bstElement idS cc P)
        (wsSigEl P pk idB idT idS dvB dvT) (bodyMarked idB aB bodyKids)) =
      [tsMarked idT aT c e] := by
    simp +decide [collectFromRoot, collectEls, hasWsuId, lookupA,
      lookupA_setA_self, wsDocOf, tsMarked, bodyMarked, bstElement, wsSigEl,
      wsSignedInfoFilled, filledRefKids, elToNode, hyT, hBT, hST]
  have hdig : checkDigests P (wsSigEl P pk idB idT idS dvB dvT) true false
      (wsDocOf (tsMarked idT aT c e) (bstElement idS cc P)
        (wsSigEl P pk idB idT idS dvB dvT) (bodyMarked idB aB bodyKids))
      [(some ("#" ++ idB), some dvB), (some ("#" ++ idT), some dvT)] =
      if dvB = P.b64e (P.sha1 (P.c14n true false (P.ser (bodyMarked idB aB bodyKids)))) then
        if dvT = P.b64e (P.sha1 (P.c14n true false (P.ser (tsMarked idT aT c e)))) then
          .ok true
        else .ok false
      else .ok false := by
    simp only [checkDigests, lookupDigest, pyDrop1_hash, hcoll1, hcoll2]
    simp +decide [hash_ne_empty, checkDigests, lookupDigest, hcoll1, hcoll2,
      pyDrop1_hash, wsDocOf, wsNsDecls, lookupA, haB, haT]
  rw [validate]
  simp only [hfind, hscan, hcert, Option.join, hcanon, Option.getD_some,
    hsub1, hsub2, hb64]
  simp +decide [lookupA]
  simp only [hsub1, hsub2]
  rw [hdig]
  split_ifs with hif1 hif2
  all_goals simp only [hb64]
  all_goals rfl
end BankWS

namespace BankWS
lemma sign_eq (P : Prims) (fs : String → Option String) (d : El)
    (kf cf kc pk cc : String)
    (hkey : fs kf = some kc) (hik : P.importKey kc = some pk)
    (hcert : fs cf = some cc) :
    sign P fs (some d) kf cf =
      .ok (appendChild d (appSigEl P (P.ser d) pk cc)) := by
  simp [sign, generate_xml_signature, calculate_signature_value, hkey, hik,
    hcert, appSigEl]

lemma validate_appDoc (P : Prims) (checkRev : String → Except PyErr Bool)
    (d : El) (x pk cc : String)
    (hb64 : ∀ s, P.b64d (P.b64e s) = some s) (hc : appClean d) :
    validate P checkRev (some (appendChild d (appSigEl P x pk cc))) =
      if P.b64e (P.sha1 (P.c14n false true x)) =
          P.b64e (P.sha1 (P.c14n false true (P.ser d))) then
        revTail P checkRev cc
          (P.rsaSha1Sign pk
            (P.c14n false true (P.ser (appSignedInfo P x))))
          (P.c14n false true (P.ser (appSignedInfo P x)))
      else .ok false := by
  obtain ⟨h1, h2, h3, h4, h5, h6, h7, h8⟩ := hc
  have hfind : findFromRoot (fun e => e.tag == dsSignature)
      (appendChild d (appSigEl P x pk cc)) =
      some (appSigEl P x pk cc) := by
    simp only [findFromRoot, appendChild, findEl_append, h5]
    simp [appSigEl, elToNode, findEl, h1]
  have hscan : scanSig (appSigEl P x pk cc) =
      ⟨[(some "", some (P.b64e (P.sha1 (P.c14n false true x))))],
        some (appSignedInfo P x),
        some (some (P.b64e (P.rsaSha1Sign pk
          (P.c14n false true (P.ser (appSignedInfo P x))))))⟩ := rfl
  have hcert : get_certificate (appendChild d (appSigEl P x pk cc)) =
      .ok (some (P.b64e cc)) := by
    have hki : findFromRoot (fun e => e.tag == dsKeyInfo)
        (appendChild d (appSigEl P x pk cc)) ≠ none := by
      simp only [findFromRoot, appendChild, findEl_append]
      by_cases hr : ((appendChild d (appSigEl P x pk cc)).tag == dsKeyInfo)
      · simp [appendChild] at hr ⊢
        simp [hr]
      · simp only [appendChild] at hr
        simp only [hr, if_false, Bool.false_eq_true, ite_false]
        cases hdk : findEl (fun e => e.tag == dsKeyInfo) d.kids <;>
          simp +decide [hdk, appSigEl, elToNode, findEl, appSignedInfo]
    rw [get_certificate]
    cases hki2 : findFromRoot (fun e => e.tag == dsKeyInfo)
        (appendChild d (appSigEl P x pk cc)) with
    | none => exact absurd hki2 hki
    | some ki =>
      have hwr : findFromRoot (fun e => e.tag == wsseReference)
          (appendChild d (appSigEl P x pk cc)) = none := by
        simp only [findFromRoot, appendChild, findEl_append, h8]
        simp +decide [appSigEl, elToNode, findEl, h4, appSignedInfo]
      have hx : findFromRoot (fun e => e.tag == dsX509Certificate)
          (appendChild d (appSigEl P x pk cc)) =
          some ⟨dsX509Certificate, [], Xn.textN (P.b64e cc) Xn.nilN⟩ := by
        simp only [findFromRoot, appendChild, findEl_append, h7]
        simp +decide [appSigEl, elToNode, findEl, h3, appSignedInfo]
      simp [hwr, hx, textOfKids]
  have h6' : findEl (fun e => e.tag == dsCanonicalizationMethod &&
      (lookupA "Algorithm" e.attrs).isSome) d.kids = none := by
    refine findEl_none_mono (fun e he => ?_) h6
    simp at he ⊢
    exact he.1
  have hcanon : findFromRoot (fun e => e.tag == dsCanonicalizationMethod &&
      (lookupA "Algorithm" e.attrs).isSome)
      (appendChild d (appSigEl P x pk cc)) =
      some ⟨dsCanonicalizationMethod, [("Algorithm", C14NWITHCOMMENTS)], Xn.nilN⟩ := by
    simp only [findFromRoot, appendChild, findEl_append, h6']
    simp +decide [appSigEl, elToNode, findEl, h2, appSignedInfo, lookupA]
  have hsub1 : substrB "#WithComments" C14NWITHCOMMENTS = true := by decide
  have hsub2 : substrB "xml-exc-c14n#" C14NWITHCOMMENTS = false := by decide
  have hdig : checkDigests P (appSigEl P x pk cc) false true
      (appendChild d (appSigEl P x pk cc))
      [(some "", some (P.b64e (P.sha1 (P.c14n false true x))))] =
      if P.b64e (P.sha1 (P.c14n false true x)) =
          P.b64e (P.sha1 (P.c14n false true (P.ser d))) then .ok true
      else .ok false := by
    have hrm : removeFirstChild (appSigEl P x pk cc)
        (appendChild d (appSigEl P x pk cc)).kids = some d.kids := by
      have := removeFirstChild_append (appSigEl P x pk cc) d.kids (by
        simpa [appSigEl] using h5)
      simpa [appendChild] using this
    rw [checkDigests]
    simp only [if_pos rfl, hrm]
    have heta : ({ appendChild d (appSigEl P x pk cc) with kids := d.kids } : El) = d := by
      simp [appendChild]
    rw [heta]
    simp [checkDigests]
  rw [validate]
  simp only [hfind, hscan, hcert, Option.join, hcanon, Option.getD_some,
    hsub1, hsub2, hb64, revTail]
  simp +decide [lookupA]
  simp only [hsub1, hsub2]
  rw [hdig]
  split_ifs with hif
  all_goals simp only [hb64]
end BankWS

namespace BankWS

/-- C4: the Signature produced by the application-profile signing over a
document serialized as `xmlString` contains exactly one Reference, with
empty URI, whose DigestValue is the base64 SHA-1 of the with-comments,
non-exclusive canonicalization of the document — never of its raw bytes. -/
theorem C4_app_single_reference_digest (P : Prims) (fs : String → Option String)
    (xmlString kf cf kc pk cc : String) (sig : El)
    (hkey : fs kf = some kc) (hik : P.importKey kc = some pk)
    (hcert : fs cf = some cc)
    (hs : generate_xml_signature P fs xmlString kf cf = .ok sig) :
    sig = appSigEl P xmlString pk cc ∧
    childrenP (fun e => e.tag == dsReference) (appSignedInfo P xmlString).kids =
      [⟨dsReference, [("URI", "")],
        Xn.elemN dsTransforms []
          (Xn.elemN dsTransform [("Algorithm", ENVELOPED)] Xn.nilN Xn.nilN)
          (Xn.elemN dsDigestMethod [("Algorithm", SHA1URI)] Xn.nilN
            (Xn.elemN dsDigestValue []
              (Xn.textN (P.b64e (P.sha1 (P.c14n false true xmlString))) Xn.nilN)
              Xn.nilN))⟩] := by
  have hgen : generate_xml_signature P fs xmlString kf cf =
      .ok (appSigEl P xmlString pk cc) := by
    simp [generate_xml_signature, calculate_signature_value, hkey, hik,
      hcert, appSigEl]
  rw [hgen] at hs
  refine ⟨by injection hs with h; exact h.symm, ?_⟩
  rfl

/-- C4 witness. -/
theorem C4_witness :
    generate_xml_signature demoPrims demoFs "<doc></doc>" "key.pem" "cert.der" =
      .ok (appSigEl demoPrims "<doc></doc>" "KEY" "CERTDER") ∧
    childrenP (fun e => e.tag == dsReference)
      (appSignedInfo demoPrims "<doc></doc>").kids =
      [⟨dsReference, [("URI", "")],
        Xn.elemN dsTransforms []
          (Xn.elemN dsTransform [("Algorithm", ENVELOPED)] Xn.nilN Xn.nilN)
          (Xn.elemN dsDigestMethod [("Algorithm", SHA1URI)] Xn.nilN
            (Xn.elemN dsDigestValue []
              (Xn.textN (demoPrims.b64e (demoPrims.sha1
                (demoPrims.c14n false true "<doc></doc>"))) Xn.nilN)
              Xn.nilN))⟩] :=
  ⟨rfl, (C4_app_single_reference_digest demoPrims demoFs "<doc></doc>" "key.pem"
    "cert.der" "PEMKEY" "KEY" "CERTDER" _ rfl rfl rfl rfl).2⟩
end BankWS

namespace BankWS

/-- C9: `sign` aborts by raising — RuntimeError on malformed XML, IOError on
a missing/unreadable key or certificate file, ValueError on an unsupported
private-key format — and, the result type being `Except`, an aborted call
yields no (partially signed) document at all. -/
theorem C9_sign_error_cases (P : Prims) (fs : String → Option String)
    (kf cf : String) :
    (sign P fs none kf cf = .error .runtimeError) ∧
    (∀ d : El, fs kf = none → sign P fs (some d) kf cf = .error .ioError) ∧
    (∀ (d : El) (kc : String), fs kf = some kc → P.importKey kc = none →
      sign P fs (some d) kf cf = .error .valueError) ∧
    (∀ (d : El) (kc pk : String), fs kf = some kc → P.importKey kc = some pk →
      fs cf = none → sign P fs (some d) kf cf = .error .ioError) := by
  refine ⟨rfl, ?_, ?_, ?_⟩
  · intro d h
    simp [sign, generate_xml_signature, calculate_signature_value, h]
  · intro d kc h hik
    simp [sign, generate_xml_signature, calculate_signature_value, h, hik]
  · intro d kc pk h hik hcf
    simp [sign, generate_xml_signature, calculate_signature_value, h, hik, hcf]

/-- C9 witness: each failure mode at a concrete input. -/
theorem C9_witness :
    (sign demoPrims demoFs none "key.pem" "cert.der" = .error .runtimeError) ∧
    (sign demoPrims demoFs (some ⟨"doc", [], Xn.nilN⟩) "nokey.pem" "cert.der" =
      .error .ioError) ∧
    (sign demoPrims demoFs (some ⟨"doc", [], Xn.nilN⟩) "cert.der" "cert.der" =
      .error .valueError) ∧
    (sign demoPrims demoFs (some ⟨"doc", [], Xn.nilN⟩) "key.pem" "nocert.der" =
      .error .ioError) := by
  refine ⟨(C9_sign_error_cases demoPrims demoFs "key.pem" "cert.der").1,
    (C9_sign_error_cases demoPrims demoFs "nokey.pem" "cert.der").2.1 _ rfl,
    (C9_sign_error_cases demoPrims demoFs "cert.der" "cert.der").2.2.1 _
      "CERTDER" rfl rfl,
    (C9_sign_error_cases demoPrims demoFs "key.pem" "nocert.der").2.2.2 _
      "PEMKEY" "KEY" rfl rfl rfl⟩

lemma validate_missing_false (P : Prims)
    (checkRev : String → Except PyErr Bool) (root sig : El)
    (hsig : findFromRoot (fun e => e.tag == dsSignature) root = some sig)
    (h : get_certificate root = .ok none ∨
      ((∃ copt, get_certificate root = .ok copt) ∧
        ((scanSig sig).sv.join = none ∨ (scanSig sig).si = none))) :
    validate P checkRev (some root) = .ok false := by
  rcases h with hcert | ⟨⟨copt, hcert⟩, hsv | hsi⟩
  · simp [validate, hsig, hcert]
  · cases copt with
    | none => simp [validate, hsig, hcert]
    | some c =>
      have hsv' : ((scanSig sig).sv.bind fun a => a) = none := hsv
      simp [validate, hsig, hcert, hsv']
  · cases copt with
    | none => simp [validate, hsig, hcert]
    | some c =>
      cases hsv : (scanSig sig).sv.join with
      | none =>
        have hsv' : ((scanSig sig).sv.bind fun a => a) = none := hsv
        simp [validate, hsig, hcert, hsv']
      | some sv =>
        have hsv' : ((scanSig sig).sv.bind fun a => a) = some sv := hsv
        simp [validate, hsig, hcert, hsv', hsi]

lemma validate_cert_raise (P : Prims)
    (checkRev : String → Except PyErr Bool) (root sig : El) (e : PyErr)
    (hsig : findFromRoot (fun e' => e'.tag == dsSignature) root = some sig)
    (hcert : get_certificate root = .error e) :
    validate P checkRev (some root) = .error e := by
  simp [validate, hsig, hcert]
end BankWS

namespace BankWS

/-- C10 counterexample: a parseable document whose Signature carries a
KeyInfo with a wsse:Reference but no BinarySecurityToken, on a root that
declares no namespaces — `get_certificate` evaluates
`tree.xpath("//wsse:BinarySecurityToken", namespaces=tree.nsmap)` with the
`wsse` prefix undefined in the root nsmap and raises `XPathEvalError`, so
`validate` raises instead of returning false for the missing
certificate. -/
theorem C10_counterexample :
    validate demoPrims demoCheckRev (some noBstDoc) = .error .xpathError := by
  rfl

/-- C10 (amended): a parseable document with a `ds:Signature` but no
extractable certificate, or no SignatureValue text, or no SignedInfo
element, makes `validate` return false — except that when a wsse:Reference
is present and the root does not declare the `wsse` prefix (or declares a
default namespace), the BinarySecurityToken lookup raises instead, and
`validate` propagates that exception (second conjunct). -/
theorem C10_missing_components_false (P : Prims)
    (checkRev : String → Except PyErr Bool) :
    (∀ root sig : El,
      findFromRoot (fun e => e.tag == dsSignature) root = some sig →
      get_certificate root = .ok none ∨
        ((∃ copt, get_certificate root = .ok copt) ∧
          ((scanSig sig).sv.join = none ∨ (scanSig sig).si = none)) →
      validate P checkRev (some root) = .ok false) ∧
    (∀ (root sig : El) (e : PyErr),
      findFromRoot (fun e' => e'.tag == dsSignature) root = some sig →
      get_certificate root = .error e →
      validate P checkRev (some root) = .error e) := by
  refine ⟨?_, ?_⟩
  · intro root sig hsig h
    exact validate_missing_false P checkRev root sig hsig h
  · intro root sig e hsig hcert
    exact validate_cert_raise P checkRev root sig e hsig hcert
end BankWS

namespace BankWS

/-- C10 witness: a document with Signature and SignedInfo but no KeyInfo
returns false, and the undeclared-wsse document raises. -/
theorem C10_witness :
    (get_certificate noCertDoc = .ok none ∧
      validate demoPrims demoCheckRev (some noCertDoc) = .ok false) ∧
    (get_certificate noBstDoc = .error .xpathError ∧
      validate demoPrims demoCheckRev (some noBstDoc) = .error .xpathError) := by
  refine ⟨⟨rfl, ?_⟩, ⟨rfl, ?_⟩⟩
  · exact (C10_missing_components_false demoPrims demoCheckRev).1 noCertDoc _
      rfl (Or.inl rfl)
  · exact (C10_missing_components_false demoPrims demoCheckRev).2 noBstDoc _
      .xpathError rfl rfl

/-- C7: the refresh-failure fallbacks claimed by the spec do not happen:
`open(cache, 'wb')` truncates (or creates) the cache file before the fetch,
so after a failed fetch `crypto.load_crl` runs on empty bytes and raises an
uncaught `OpenSSL.crypto.Error` — both with a stale cache (which should
have been reused) and with no cache when the `resources` directory exists
(which should have returned False).  The claimed fail-open `False` is
reached only when the `resources` directory itself is missing.  A fresh
cache (not older than 24h) works and serial 7 is not among the revoked
serials [5]. -/
theorem C7_crl_refresh_divergence :
    check_revocation_status demoPrims demoLoadCrl
      ⟨true, true, some "GOODCRL", 2⟩ none "CERTDER" = .error .cryptoError ∧
    check_revocation_status demoPrims demoLoadCrl
      ⟨true, true, none, 0⟩ none "CERTDER" = .error .cryptoError ∧
    check_revocation_status demoPrims demoLoadCrl
      ⟨false, true, none, 0⟩ none "CERTDER" = .ok false ∧
    check_revocation_status demoPrims demoLoadCrl
      ⟨true, true, some "GOODCRL", 0⟩ none "CERTDER" = .ok false := by
  refine ⟨rfl, rfl, rfl, rfl⟩
end BankWS

namespace BankWS

lemma lookupDigest_error (P : Prims) (exc com : Bool) (root : El)
    (k : String) (e : PyErr) (h : lookupDigest P exc com root k = .error e) :
    e = .valueError ∨ e = .xpathError := by
  simp only [lookupDigest] at h
  split at h
  · simp_all
  · split at h
    · simp_all
    · split at h
      · simp_all
      · split at h <;> simp_all

lemma checkDigests_error (P : Prims) (sig : El) (exc com : Bool) :
    ∀ (entries : List (Option String × Option String)) (root : El) (e : PyErr),
      checkDigests P sig exc com root entries = .error e →
      e = .typeError ∨ e = .valueError ∨ e = .xpathError := by
  intro entries
  induction entries with
  | nil => intro root e h; simp [checkDigests] at h
  | cons kv rest ih =>
    intro root e h
    obtain ⟨key, value⟩ := kv
    simp only [checkDigests] at h
    split at h
    · simp_all
    · split at h
      · split at h
        · simp_all
        · split at h
          · exact ih _ e h
          · simp_all
      · split at h
        · rename_i e' heq
          injection h with h'
          subst h'
          rcases lookupDigest_error P exc com root _ _ heq with h1 | h1
          · right; left; exact h1
          · right; right; exact h1
        · split at h
          · exact ih _ e h
          · simp_all
end BankWS

namespace BankWS
lemma get_certificate_error (root : El) (e : PyErr)
    (h : get_certificate root = .error e) :
    e = .valueError ∨ e = .xpathError := by
  simp only [get_certificate] at h
  split at h
  · simp_all
  · split at h
    · split at h
      · simp_all
      · split at h
        · simp_all
        · split at h
          · split at h <;> simp_all
          · simp_all
    · split at h <;> simp_all
end BankWS

namespace BankWS
lemma validate_error_cases (P : Prims) (checkRev : String → Except PyErr Bool)
    (input : Option El) (e : PyErr)
    (h : validate P checkRev input = .error e) :
    e = .nameError ∨ e = .typeError ∨ e = .valueError ∨
      e = .xpathError ∨ e = .binasciiError ∨
      ∃ s, checkRev s = .error e := by
  cases input with
  | none => simp [validate] at h
  | some root =>
    simp only [validate] at h
    split at h
    · simp at h
    · split at h
      · rename_i e' heq
        injection h with h'
        subst h'
        rcases get_certificate_error _ _ heq with h1 | h1
        · right; right; left; exact h1
        · right; right; right; left; exact h1
      · simp at h
      · split at h
        · simp at h
        · split at h
          · simp at h
          · split at h
            · right; right; right; right; left
              injection h with h'; exact h'.symm
            · right; right; right; right; left
              injection h with h'; exact h'.symm
            · split at h
              · left; injection h with h'; exact h'.symm
              · split at h
                · rename_i e' heq
                  injection h with h'
                  subst h'
                  rcases checkDigests_error P _ _ _ _ _ _ heq with h1 | h1 | h1
                  · right; left; exact h1
                  · right; right; left; exact h1
                  · right; right; right; left; exact h1
                · simp at h
                · split at h
                  · simp at h
                  · simp at h
                  · injection h with h'
                    subst h'
                    right; right; right; right; right
                    exact ⟨_, by assumption⟩
                  · split at h
                    · simp at h
                    · split at h <;> simp at h
end BankWS

namespace BankWS
lemma validate_unfolded (P : Prims) (checkRev : String → Except PyErr Bool)
    (root sig si cm : El) (certText svText certData svRaw : String)
    (hsig : findFromRoot (fun e => e.tag == dsSignature) root = some sig)
    (hcert : get_certificate root = .ok (some certText))
    (hsv : (scanSig sig).sv.join = some svText)
    (hsi : (scanSig sig).si = some si)
    (hcd : P.b64d certText = some certData)
    (hsvd : P.b64d svText = some svRaw)
    (hcm : findFromRoot (fun e => e.tag == dsCanonicalizationMethod &&
      (lookupA "Algorithm" e.attrs).isSome) root = some cm) :
    validate P checkRev (some root) =
      match checkDigests P sig
          (substrB "xml-exc-c14n#" ((lookupA "Algorithm" cm.attrs).getD ""))
          (substrB "#WithComments" ((lookupA "Algorithm" cm.attrs).getD ""))
          root (scanSig sig).dvs with
      | .error e => .error e
      | .ok false => .ok false
      | .ok true =>
        revTail P checkRev certData svRaw
          (P.c14n
            (substrB "xml-exc-c14n#" ((lookupA "Algorithm" cm.attrs).getD ""))
            (substrB "#WithComments" ((lookupA "Algorithm" cm.attrs).getD ""))
            (P.ser si)) := by
  have hsv' : ((scanSig sig).sv.bind fun a => a) = some svText := hsv
  simp only [validate, hsig, hcert, hsv, hsv', hsi, hcd, hsvd, hcm, revTail]
end BankWS

namespace BankWS

/-- C2 counterexample: a parseable document whose Signature passes the
presence checks (certificate, SignatureValue, SignedInfo all found) but
contains no CanonicalizationMethod with an Algorithm attribute makes
`validate` raise an uncaught NameError (`comments`/`exclusive` are assigned
only inside `if len(algorithm) > 0:` and are then read unconditionally) —
it does not collapse to `false` as the claim states. -/
theorem C2_counterexample :
    validate demoPrims demoCheckRev (some noCanonDoc) = .error .nameError := by
  rfl

/-- C2 (amended): `validate` returns false for an unparseable input, a
missing Signature, and a missing certificate / SignatureValue / SignedInfo;
after those checks a digest mismatch and every revocation / certificate /
verification failure also return false; but it does raise: NameError when no
CanonicalizationMethod with an Algorithm attribute exists, TypeError when a
DigestValue's parent Reference has no URI attribute, ValueError when an
empty-URI reference is processed while the found Signature is not a direct
child of the root, or when a nsmap-based XPath runs under a root with a
default namespace declaration, XPathEvalError when the BinarySecurityToken
lookup or a `//*[@wsu:Id=..]` lookup runs with its prefix undeclared on the
root, or when a reference URI splices an apostrophe into the string-built
XPath, binascii.Error when the certificate or SignatureValue text is not
valid base64, and it propagates any non-ValueError exception of
check_revocation_status; the final conjunct proves nothing else escapes the
model, and `validate`, a pure function of the input bytes, never mutates
them. -/
theorem C2_fail_closed_amended (P : Prims)
    (checkRev : String → Except PyErr Bool) :
    (validate P checkRev none = .ok false) ∧
    (∀ root : El, findFromRoot (fun e => e.tag == dsSignature) root = none →
      validate P checkRev (some root) = .ok false) ∧
    (∀ root sig : El,
      findFromRoot (fun e => e.tag == dsSignature) root = some sig →
      get_certificate root = .ok none ∨
        ((∃ copt, get_certificate root = .ok copt) ∧
          ((scanSig sig).sv.join = none ∨ (scanSig sig).si = none)) →
      validate P checkRev (some root) = .ok false) ∧
    (∀ (root sig si cm : El) (certText svText certData svRaw : String),
      findFromRoot (fun e => e.tag == dsSignature) root = some sig →
      get_certificate root = .ok (some certText) →
      (scanSig sig).sv.join = some svText →
      (scanSig sig).si = some si →
      P.b64d certText = some certData →
      P.b64d svText = some svRaw →
      findFromRoot (fun e => e.tag == dsCanonicalizationMethod &&
        (lookupA "Algorithm" e.attrs).isSome) root = some cm →
      (checkDigests P sig
          (substrB "xml-exc-c14n#" ((lookupA "Algorithm" cm.attrs).getD ""))
          (substrB "#WithComments" ((lookupA "Algorithm" cm.attrs).getD ""))
          root (scanSig sig).dvs = .ok false →
        validate P checkRev (some root) = .ok false) ∧
      (checkDigests P sig
          (substrB "xml-exc-c14n#" ((lookupA "Algorithm" cm.attrs).getD ""))
          (substrB "#WithComments" ((lookupA "Algorithm" cm.attrs).getD ""))
          root (scanSig sig).dvs = .ok true →
        (checkRev certData = .ok true →
          validate P checkRev (some root) = .ok false) ∧
        (checkRev certData = .error .valueError →
          validate P checkRev (some root) = .ok false) ∧
        (checkRev certData = .ok false →
          P.osslLoadCert certData = none →
          validate P checkRev (some root) = .ok false) ∧
        (∀ cert, checkRev certData = .ok false →
          P.osslLoadCert certData = some cert →
          P.osslVerify cert svRaw
            (P.c14n
              (substrB "xml-exc-c14n#" ((lookupA "Algorithm" cm.attrs).getD ""))
              (substrB "#WithComments" ((lookupA "Algorithm" cm.attrs).getD ""))
              (P.ser si)) = false →
          validate P checkRev (some root) = .ok false))) ∧
    (∀ (root : El) (e : PyErr), validate P checkRev (some root) = .error e →
      e = .nameError ∨ e = .typeError ∨ e = .valueError ∨
        e = .xpathError ∨ e = .binasciiError ∨
        ∃ s, checkRev s = .error e) := by
  refine ⟨rfl, ?_, ?_, ?_, ?_⟩
  · intro root hnone
    simp [validate, hnone]
  · intro root sig hsig h
    exact validate_missing_false P checkRev root sig hsig h
  · intro root sig si cm certText svText certData svRaw hsig hcert hsv hsi
      hcd hsvd hcm
    have hu := validate_unfolded P checkRev root sig si cm certText svText
      certData svRaw hsig hcert hsv hsi hcd hsvd hcm
    constructor
    · intro hd
      rw [hu, hd]
    · intro hd
      rw [hu, hd]
      refine ⟨fun hr => by simp [revTail, hr],
        fun hr => by simp [revTail, hr],
        fun hr hl => by simp [revTail, hr, hl],
        fun cert hr hl hv => by simp [revTail, hr, hl, hv]⟩
  · intro root e h
    exact validate_error_cases P checkRev (some root) e h

/-- C2 witness: concrete instances — an unsigned document returns false and
a document lacking its certificate returns false. -/
theorem C2_witness :
    validate demoPrims demoCheckRev (some demoDoc) = .ok false ∧
    validate demoPrims demoCheckRev (some noCertDoc) = .ok false := by
  refine ⟨(C2_fail_closed_amended demoPrims demoCheckRev).2.1 demoDoc rfl, ?_⟩
  exact (C2_fail_closed_amended demoPrims demoCheckRev).2.2.1 noCertDoc _ rfl
    (Or.inl rfl)
end BankWS

namespace BankWS

/-- C5 counterexample: an envelope whose Security header holds two
`wsu:Timestamp` elements is signed to completion by `sending`
(`ensure_security_header` queues every timestamp), and the resulting
SignedInfo holds three References, not two. -/
theorem C5_counterexample :
    (match sending demoPrims demoFs demoUid demoPlugin envTwoTs with
      | .ok t => wsRefCount t
      | .error _ => none) = some 3 := by
  rfl
end BankWS

namespace BankWS

/-- C5 (amended): for an envelope whose Security header holds exactly one
`wsu:Timestamp`, `sending` produces exactly two References — `#bodyId` and
`#timestampId` — each with an exclusive-C14N Transform and a digest computed
with exclusive canonicalization and no comments (`wsBodyDigest` and
`wsTsDigest` are `b64(sha1(c14n exclusive:=true comments:=false …))`); the
BinarySecurityToken receives its own `wsu:Id` but no Reference points at
it.  One Reference per marked timestamp is produced in general, hence the
two-timestamp counterexample. -/
theorem C5_ws_two_references (P : Prims) (fs : String → Option String)
    (uid : Nat → String) (plugin : SignerPlugin)
    (aT aB : List (String × String)) (tc te : String) (bodyKids : Xn)
    (kc pk cc : String) (out : El)
    (hkey : fs plugin.keyfile = some kc) (hik : P.importKey kc = some pk)
    (hcert : fs plugin.certificate = some cc)
    (h10 : uid 1 ≠ uid 0) (h20 : uid 2 ≠ uid 0) (h21 : uid 2 ≠ uid 1)
    (hs : sending P fs uid plugin (envFam aT aB tc te bodyKids) = .ok out) :
    out = wsOut P pk cc (uid 0) (uid 1) (uid 2) aT aB tc te bodyKids ∧
    childrenP (fun e => e.tag == dsReference)
        (wsSignedInfoFilled (uid 0) (uid 1)
          (wsBodyDigest P (uid 0) aB bodyKids)
          (wsTsDigest P (uid 1) aT tc te)).kids =
      [⟨dsReference, [("URI", "#" ++ uid 0)],
         filledRefKids (wsBodyDigest P (uid 0) aB bodyKids)⟩,
       ⟨dsReference, [("URI", "#" ++ uid 1)],
         filledRefKids (wsTsDigest P (uid 1) aT tc te)⟩] ∧
    lookupA wsuId (bstElement (uid 2) cc P).attrs = some (uid 2) ∧
    (∀ uri ∈ refURIs (wsSignedInfoFilled (uid 0) (uid 1)
        (wsBodyDigest P (uid 0) aB bodyKids)
        (wsTsDigest P (uid 1) aT tc te)), uri ≠ some ("#" ++ uid 2)) := by
  rw [sending_eq P fs uid plugin aT aB tc te bodyKids kc pk cc hkey hik hcert
    h10] at hs
  refine ⟨by injection hs with h; exact h.symm, rfl, rfl, ?_⟩
  intro uri hm
  simp +decide [refURIs, childrenP, wsSignedInfoFilled, filledRefKids,
    lookupA] at hm
  rcases hm with hm | hm <;> subst hm <;> simp [hash_inj] <;> intro hx
  · exact h20 hx.symm
  · exact h21 hx.symm
end BankWS

namespace BankWS
/-- C5 witness: the single-timestamp envelope at concrete values. -/
theorem C5_witness :
    sending demoPrims demoFs demoUid demoPlugin
        (envFam [] [] "1.5Z" "2.5Z" (Xn.textN "payload" Xn.nilN)) =
      .ok (wsOut demoPrims "KEY" "CERTDER" (demoUid 0) (demoUid 1) (demoUid 2)
        [] [] "1.5Z" "2.5Z" (Xn.textN "payload" Xn.nilN)) ∧
    childrenP (fun e => e.tag == dsReference)
        (wsSignedInfoFilled (demoUid 0) (demoUid 1)
          (wsBodyDigest demoPrims (demoUid 0) [] (Xn.textN "payload" Xn.nilN))
          (wsTsDigest demoPrims (demoUid 1) [] "1.5Z" "2.5Z")).kids =
      [⟨dsReference, [("URI", "#" ++ demoUid 0)],
         filledRefKids (wsBodyDigest demoPrims (demoUid 0) []
           (Xn.textN "payload" Xn.nilN))⟩,
       ⟨dsReference, [("URI", "#" ++ demoUid 1)],
         filledRefKids (wsTsDigest demoPrims (demoUid 1) [] "1.5Z" "2.5Z")⟩] ∧
    lookupA wsuId (bstElement (demoUid 2) "CERTDER" demoPrims).attrs =
      some (demoUid 2) := by
  have h := C5_ws_two_references demoPrims demoFs demoUid demoPlugin [] []
    "1.5Z" "2.5Z" (Xn.textN "payload" Xn.nilN) "PEMKEY" "KEY" "CERTDER"
    (wsOut demoPrims "KEY" "CERTDER" (demoUid 0) (demoUid 1) (demoUid 2) [] []
      "1.5Z" "2.5Z" (Xn.textN "payload" Xn.nilN))
    rfl rfl rfl (by decide) (by decide) (by decide) (by rfl)
  exact ⟨rfl, h.2.1, h.2.2.1⟩
end BankWS

namespace BankWS

/-- C1 counterexample: a well-formed document that already contains a
`ds:Signature` element, signed with a matching, readable, unrevoked
key/certificate pair, still fails validation: `validate` picks the *first*
`//ds:Signature` in document order — the pre-existing one — finds no
SignatureValue inside it, and returns false. -/
theorem C1_counterexample :
    (sign demoPrims demoFs (some preSignedDoc) "key.pem" "cert.der").toOption.isSome
      = true ∧
    validate demoPrims demoCheckRev
      (sign demoPrims demoFs (some preSignedDoc) "key.pem" "cert.der").toOption =
      .ok false := by
  exact ⟨rfl, rfl⟩

/-- C1 (amended): the signing/validation round trip returns true for both
profiles, provided the signed content does not collide with the validator's
document-wide searches: for the application profile the document must not
already contain `ds:Signature`, `ds:CanonicalizationMethod`,
`ds:X509Certificate` or `wsse:Reference` elements; for the WS-Security
profile the envelope has the standard Header/Security/single-Timestamp/Body
shape with the `wsse` and `wsu` prefixes declared on the root (the
validator evaluates its BinarySecurityToken and `wsu:Id` XPaths with the
root nsmap and raises on an envelope without them), and the generated ids
are fresh, pairwise distinct, apostrophe-free and not used as `wsu:Id` in
the Body content.  "Matching key/certificate pair" is the hypothesis that a
signature made with the private key verifies under the certificate;
"certificate not on the CRL" is the hypothesis that the revocation check
returns false; base64 decode inverts encode. -/
theorem C1_roundtrip :
    (∀ (P : Prims) (fs : String → Option String)
      (checkRev : String → Except PyErr Bool) (d : El)
      (kf cf kc pk cc : String) (cert : Cert),
      appClean d →
      fs kf = some kc → P.importKey kc = some pk → fs cf = some cc →
      (∀ s, P.b64d (P.b64e s) = some s) →
      P.osslLoadCert cc = some cert →
      (∀ m, P.osslVerify cert (P.rsaSha1Sign pk m) m = true) →
      checkRev cc = .ok false →
      validate P checkRev (sign P fs (some d) kf cf).toOption = .ok true) ∧
    (∀ (P : Prims) (fs : String → Option String)
      (checkRev : String → Except PyErr Bool) (uid : Nat → String)
      (plugin : SignerPlugin) (aT aB : List (String × String))
      (tc te : String) (bodyKids : Xn) (kc pk cc : String) (cert : Cert),
      fs plugin.keyfile = some kc → P.importKey kc = some pk →
      fs plugin.certificate = some cc →
      uid 0 ≠ uid 1 → uid 1 ≠ uid 0 → uid 2 ≠ uid 0 → uid 2 ≠ uid 1 →
      containsApos (uid 0) = false → containsApos (uid 1) = false →
      collectEls (hasWsuId (uid 0)) bodyKids = [] →
      collectEls (hasWsuId (uid 1)) bodyKids = [] →
      (∀ s, P.b64d (P.b64e s) = some s) →
      P.osslLoadCert cc = some cert →
      (∀ m, P.osslVerify cert (P.rsaSha1Sign pk m) m = true) →
      checkRev cc = .ok false →
      validate P checkRev
        (sending P fs uid plugin (envFam aT aB tc te bodyKids)).toOption =
        .ok true) := by
  constructor
  · intro P fs checkRev d kf cf kc pk cc cert hc hkey hik hcert hb64 hload
      hver hrev
    rw [sign_eq P fs d kf cf kc pk cc hkey hik hcert]
    have hv := validate_appDoc P checkRev d (P.ser d) pk cc hb64 hc
    rw [if_pos rfl] at hv
    simp only [Except.toOption]
    rw [hv]
    simp [revTail, hrev, hload, hver]
  · intro P fs checkRev uid plugin aT aB tc te bodyKids kc pk cc cert hkey
      hik hcert h01 h10 h20 h21 ha0 ha1 hyB hyT hb64 hload hver hrev
    rw [sending_eq P fs uid plugin aT aB tc te bodyKids kc pk cc hkey hik
      hcert h10]
    simp only [Except.toOption, wsOut]
    rw [validate_wsDoc P checkRev pk cc (uid 0) (uid 1) (uid 2) aT aB
      (truncSecs tc) (truncSecs te) bodyKids
      (wsBodyDigest P (uid 0) aB bodyKids) (wsTsDigest P (uid 1) aT tc te)
      hb64 h01 h10 h20 h21 ha0 ha1 hyB hyT]
    simp only [wsBodyDigest, wsTsDigest, if_true, eq_self_iff_true]
    simp [revTail, hrev, hload, hver]
end BankWS

namespace BankWS
/-- C1 witness: concrete round trips through both profiles. -/
theorem C1_witness :
    validate demoPrims demoCheckRev
      (sign demoPrims demoFs (some demoDoc) "key.pem" "cert.der").toOption =
      .ok true ∧
    validate demoPrims demoCheckRev
      (sending demoPrims demoFs demoUid demoPlugin
        (envFam [] [] "1.5Z" "2.5Z" (Xn.textN "payload" Xn.nilN))).toOption =
      .ok true := by
  refine ⟨C1_roundtrip.1 demoPrims demoFs demoCheckRev demoDoc "key.pem"
      "cert.der" "PEMKEY" "KEY" "CERTDER" ⟨7⟩ (by decide) rfl rfl rfl
      (fun s => rfl) rfl (fun m => by simp [demoPrims]) rfl,
    C1_roundtrip.2 demoPrims demoFs demoCheckRev demoUid demoPlugin [] []
      "1.5Z" "2.5Z" (Xn.textN "payload" Xn.nilN) "PEMKEY" "KEY" "CERTDER" ⟨7⟩
      rfl rfl rfl (by decide) (by decide) (by decide) (by decide)
      (by decide) (by decide) rfl rfl
      (fun s => rfl) rfl (fun m => by simp [demoPrims]) rfl⟩
end BankWS

namespace BankWS

set_option maxRecDepth 4096 in
/-- C8 (code bug): certificate.py line 93 compares `Revoked.get_serial()` —
a hex-encoded byte string — with `X509.get_serial_number()` — an `int` —
so the comparison is always False and the program never reports a revoked
certificate.  First conjunct: the serial comparison is constantly false.
Second conjunct: `check_revocation_status` over a fresh cache whose loaded
CRL holds the entry with hex serial "05" — the serial of the certificate
(serial number 5) being checked — still reports not-revoked.  Third
conjunct: `validate` on an honestly signed document using that revoked
certificate returns true, where the claim (and the spec) require false. -/
theorem C8_revocation_never_detected :
    (∀ (revokedHexSerial : String) (sn : Nat),
      pySerialEq revokedHexSerial sn = false) ∧
    check_revocation_status demoPrims demoLoadCrl
      ⟨true, true, some "GOODCRL", 0⟩ none "REVCERT" = .ok false ∧
    validate demoPrims
      (check_revocation_status demoPrims demoLoadCrl
        ⟨true, true, some "GOODCRL", 0⟩ none)
      (sign demoPrims demoFs (some demoDoc) "key.pem" "revcert.der").toOption =
      .ok true := by
  exact ⟨fun r sn => rfl, rfl, rfl⟩
end BankWS

namespace BankWS

/-- C3: tamper detection.  First conjunct: replacing the signed content `d`
of an application-signed document by any content `d'` whose with-comments
canonical SHA-1 digest differs (as any single-byte text mutation does,
barring a SHA-1 collision — digest distinctness is the hypothesis `hne`)
makes `validate` return false: the empty-URI reference covers the whole
document minus the Signature, so the recomputed digest no longer matches
the stored DigestValue.  Second conjunct: in general, whenever the
digest-recomputation loop reports a mismatch (`.ok false`), `validate`
returns false — there is no partial trust. -/
theorem C3_tamper_detection :
    (∀ (P : Prims) (checkRev : String → Except PyErr Bool) (d d' : El)
      (pk cc : String),
      appClean d' →
      (∀ s, P.b64d (P.b64e s) = some s) →
      P.b64e (P.sha1 (P.c14n false true (P.ser d))) ≠
        P.b64e (P.sha1 (P.c14n false true (P.ser d'))) →
      validate P checkRev
        (some (appendChild d' (appSigEl P (P.ser d) pk cc))) = .ok false) ∧
    (∀ (P : Prims) (checkRev : String → Except PyErr Bool)
      (root sig si cm : El) (certText svText certData svRaw : String),
      findFromRoot (fun e => e.tag == dsSignature) root = some sig →
      get_certificate root = .ok (some certText) →
      (scanSig sig).sv.join = some svText →
      (scanSig sig).si = some si →
      P.b64d certText = some certData →
      P.b64d svText = some svRaw →
      findFromRoot (fun e => e.tag == dsCanonicalizationMethod &&
        (lookupA "Algorithm" e.attrs).isSome) root = some cm →
      checkDigests P sig
        (substrB "xml-exc-c14n#" ((lookupA "Algorithm" cm.attrs).getD ""))
        (substrB "#WithComments" ((lookupA "Algorithm" cm.attrs).getD ""))
        root (scanSig sig).dvs = .ok false →
      validate P checkRev (some root) = .ok false) := by
  constructor
  · intro P checkRev d d' pk cc hc hb64 hne
    have hv := validate_appDoc P checkRev d' (P.ser d) pk cc hb64 hc
    rw [if_neg hne] at hv
    exact hv
  · intro P checkRev root sig si cm certText svText certData svRaw hsig
      hcert hsv hsi hcd hsvd hcm hd
    rw [validate_unfolded P checkRev root sig si cm certText svText certData
      svRaw hsig hcert hsv hsi hcd hsvd hcm, hd]

/-- C3 witness: a concrete one-byte text mutation is rejected. -/
theorem C3_witness :
    validate demoPrims demoCheckRev
      (some (appendChild demoDocTampered
        (appSigEl demoPrims (demoPrims.ser demoDoc) "KEY" "CERTDER"))) =
      .ok false := by
  exact C3_tamper_detection.1 demoPrims demoCheckRev demoDoc demoDocTampered
    "KEY" "CERTDER" (by decide) (fun s => rfl) (by decide)
end BankWS

namespace BankWS

/-- C6: timestamp truncation.  First conjunct: the signed envelope carries
the Timestamp with Created/Expires rewritten to whole seconds
(`truncSecs`), and the DigestValue stored for the Timestamp reference is
`wsTsDigest`, which by the second conjunct is the digest of the *truncated*
element.  Third conjunct: validating the same signed envelope with the
original untruncated texts back in place returns false, provided the
truncated and untruncated canonical digests differ (`hne`, the SHA-1
collision-freeness idealization — they serialize differently whenever the
original had sub-second precision). -/
theorem C6_timestamp_truncated_before_digest :
    (∀ (P : Prims) (fs : String → Option String) (uid : Nat → String)
      (plugin : SignerPlugin) (aT aB : List (String × String))
      (tc te : String) (bodyKids : Xn) (kc pk cc : String),
      fs plugin.keyfile = some kc → P.importKey kc = some pk →
      fs plugin.certificate = some cc → uid 1 ≠ uid 0 →
      sending P fs uid plugin (envFam aT aB tc te bodyKids) =
        .ok (wsDocOf (tsMarked (uid 1) aT (truncSecs tc) (truncSecs te))
          (bstElement (uid 2) cc P)
          (wsSigEl P pk (uid 0) (uid 1) (uid 2)
            (wsBodyDigest P (uid 0) aB bodyKids)
            (wsTsDigest P (uid 1) aT tc te))
          (bodyMarked (uid 0) aB bodyKids))) ∧
    (∀ (P : Prims) (idT : String) (aT : List (String × String))
      (tc te : String),
      wsTsDigest P idT aT tc te =
        P.b64e (P.sha1 (P.c14n true false
          (P.ser (tsMarked idT aT (truncSecs tc) (truncSecs te)))))) ∧
    (∀ (P : Prims) (checkRev : String → Except PyErr Bool)
      (pk cc idB idT idS : String) (aT aB : List (String × String))
      (tc te : String) (bodyKids : Xn),
      (∀ s, P.b64d (P.b64e s) = some s) →
      idB ≠ idT → idT ≠ idB → idS ≠ idB → idS ≠ idT →
      containsApos idB = false → containsApos idT = false →
      collectEls (hasWsuId idB) bodyKids = [] →
      collectEls (hasWsuId idT) bodyKids = [] →
      wsTsDigest P idT aT tc te ≠
        P.b64e (P.sha1 (P.c14n true false (P.ser (tsMarked idT aT tc te)))) →
      validate P checkRev
        (some (wsDocOf (tsMarked idT aT tc te) (bstElement idS cc P)
          (wsSigEl P pk idB idT idS (wsBodyDigest P idB aB bodyKids)
            (wsTsDigest P idT aT tc te))
          (bodyMarked idB aB bodyKids))) = .ok false) := by
  refine ⟨?_, fun P idT aT tc te => rfl, ?_⟩
  · intro P fs uid plugin aT aB tc te bodyKids kc pk cc hkey hik hcert h10
    exact sending_eq P fs uid plugin aT aB tc te bodyKids kc pk cc hkey hik
      hcert h10
  · intro P checkRev pk cc idB idT idS aT aB tc te bodyKids hb64 hBT hTB hSB
      hST haB haT hyB hyT hne
    rw [validate_wsDoc P checkRev pk cc idB idT idS aT aB tc te bodyKids
      (wsBodyDigest P idB aB bodyKids) (wsTsDigest P idT aT tc te)
      hb64 hBT hTB hSB hST haB haT hyB hyT]
    rw [if_neg hne]
    simp [wsBodyDigest]

/-- C6 witness: a sub-second timestamp at concrete values — the signed
output stores the truncated digest, and restoring the original text makes
validation fail. -/
theorem C6_witness :
    sending demoPrims demoFs demoUid demoPlugin
      (envFam [] [] "2012-01-01T00:00:00.5Z" "2012-01-01T00:05:00.5Z"
        (Xn.textN "payload" Xn.nilN)) =
      .ok (wsDocOf (tsMarked (demoUid 1) []
          (truncSecs "2012-01-01T00:00:00.5Z")
          (truncSecs "2012-01-01T00:05:00.5Z"))
        (bstElement (demoUid 2) "CERTDER" demoPrims)
        (wsSigEl demoPrims "KEY" (demoUid 0) (demoUid 1) (demoUid 2)
          (wsBodyDigest demoPrims (demoUid 0) [] (Xn.textN "payload" Xn.nilN))
          (wsTsDigest demoPrims (demoUid 1) [] "2012-01-01T00:00:00.5Z"
            "2012-01-01T00:05:00.5Z"))
        (bodyMarked (demoUid 0) [] (Xn.textN "payload" Xn.nilN))) ∧
    validate demoPrims demoCheckRev
      (some (wsDocOf (tsMarked (demoUid 1) [] "2012-01-01T00:00:00.5Z"
          "2012-01-01T00:05:00.5Z")
        (bstElement (demoUid 2) "CERTDER" demoPrims)
        (wsSigEl demoPrims "KEY" (demoUid 0) (demoUid 1) (demoUid 2)
          (wsBodyDigest demoPrims (demoUid 0) [] (Xn.textN "payload" Xn.nilN))
          (wsTsDigest demoPrims (demoUid 1) [] "2012-01-01T00:00:00.5Z"
            "2012-01-01T00:05:00.5Z"))
        (bodyMarked (demoUid 0) [] (Xn.textN "payload" Xn.nilN)))) =
      .ok false := by
  refine ⟨C6_timestamp_truncated_before_digest.1 demoPrims demoFs demoUid
      demoPlugin [] [] "2012-01-01T00:00:00.5Z" "2012-01-01T00:05:00.5Z"
      (Xn.textN "payload" Xn.nilN) "PEMKEY" "KEY" "CERTDER" rfl rfl rfl
      (by decide), ?_⟩
  exact C6_timestamp_truncated_before_digest.2.2 demoPrims demoCheckRev "KEY"
    "CERTDER" (demoUid 0) (demoUid 1) (demoUid 2) [] []
    "2012-01-01T00:00:00.5Z" "2012-01-01T00:05:00.5Z"
    (Xn.textN "payload" Xn.nilN) (fun s => rfl) (by decide) (by decide)
    (by decide) (by decide) (by decide) (by decide) rfl rfl (by decide)
end BankWS
